import Mathlib

/-!
Shallow embedding of the iota-sdk bindings-core fragment:

* `src/bindings/core/src/method/account.rs` (the `AccountMethod` command enum),
* `src/bindings/core/src/method/wallet.rs` (the `WalletMethod` command enum),
* `src/bindings/core/src/method_handler/account.rs`
  (`call_account_method_internal`),
* `src/bindings/core/tests/utils.rs` (the bech32/hex conversion test).

The wrapped wallet engine (the `iota_sdk` crate) is outside the fragment.  Its
opaque domain objects are embedded as single-field wrapper structures, the
external account/client handle is embedded as a record of result maps
(`Account`), and every call the dispatch function makes on that handle is
recorded in an explicit trace (`EngineCall`) so that forwarding, call-count and
error-propagation properties can be stated.
-/

namespace Iota

/-- Errors visible at the binding boundary.  `invalidField` embeds
`iota_sdk::types::block::Error::InvalidField(&str)`, `invalidAmount` embeds
`iota_sdk::client::Error::InvalidAmount(String)`.  `outputAmount` and
`protocolMismatch` stand for the (external) DTO-conversion failures of
`Output::try_from_dto` and `try_from_dto` with protocol parameters, and
`engine` is an arbitrary opaque error produced by the wrapped engine. -/
inductive Err where
  | invalidField (field : String)
  | invalidAmount (amount : String)
  | outputAmount (amount : Nat)
  | protocolMismatch
  | engine (code : Nat)
deriving DecidableEq, Repr

/-- Opaque external domain object (`iota_sdk::wallet::account::types::Transaction`). -/
structure Transaction where
  val : Nat
deriving DecidableEq, Repr

/-- Opaque external output data (`OutputData`). -/
structure OutputData where
  val : Nat
deriving DecidableEq, Repr

/-- External `Output`: the coin `amount` is the one field the external DTO
conversion validates against the token supply; everything else is opaque. -/
structure Output where
  amount : Nat
  meta : Nat
deriving DecidableEq, Repr

/-- Opaque external account address. -/
structure AccountAddress where
  val : Nat
deriving DecidableEq, Repr

/-- Opaque external address-with-unspent-outputs record. -/
structure AddressWithUnspentOutputs where
  val : Nat
deriving DecidableEq, Repr

/-- Opaque external account balance. -/
structure AccountBalance where
  val : Nat
deriving DecidableEq, Repr

/-- Opaque external prepared transaction data. -/
structure PreparedTransactionData where
  val : Nat
deriving DecidableEq, Repr

/-- Opaque external signed transaction data. -/
structure SignedTransactionData where
  val : Nat
deriving DecidableEq, Repr

/-- Opaque external mint-token transaction. -/
structure MintTokenTransaction where
  val : Nat
deriving DecidableEq, Repr

/-- Opaque external block id. -/
structure BlockId where
  val : Nat
deriving DecidableEq, Repr

/-- Opaque external rent structure fetched from the node. -/
structure RentStructure where
  val : Nat
deriving DecidableEq, Repr

/-- Opaque external protocol parameters fetched from the node. -/
structure ProtocolParameters where
  val : Nat
deriving DecidableEq, Repr

/-- Opaque external output id. -/
structure OutputId where
  val : Nat
deriving DecidableEq, Repr

/-- Opaque external token id. -/
structure TokenId where
  val : Nat
deriving DecidableEq, Repr

/-- Opaque external transaction id. -/
structure TransactionId where
  val : Nat
deriving DecidableEq, Repr

/-- Opaque external output filter options (passed through unconverted). -/
structure FilterOptions where
  val : Nat
deriving DecidableEq, Repr

/-- Opaque external sync options (passed through unconverted). -/
structure SyncOptions where
  val : Nat
deriving DecidableEq, Repr

/-- Opaque external address-generation options (passed through unconverted). -/
structure GenerateAddressOptions where
  val : Nat
deriving DecidableEq, Repr

/-- Opaque external `OutputsToClaim` selector (passed through unconverted). -/
structure OutputsToClaim where
  val : Nat
deriving DecidableEq, Repr

/-- Opaque external transaction options (the converted form of
`TransactionOptionsDto`). -/
structure TransactionOptions where
  val : Nat
deriving DecidableEq, Repr

/-- Opaque external `Burn` value (the converted form of `BurnDto`). -/
structure Burn where
  val : Nat
deriving DecidableEq, Repr

/-- Opaque external create-alias parameters. -/
structure CreateAliasParams where
  val : Nat
deriving DecidableEq, Repr

/-- Opaque external mint-native-token parameters. -/
structure MintNativeTokenParams where
  val : Nat
deriving DecidableEq, Repr

/-- Opaque external mint-NFT parameters. -/
structure MintNftParams where
  val : Nat
deriving DecidableEq, Repr

/-- Opaque external output-preparation parameters. -/
structure OutputParams where
  val : Nat
deriving DecidableEq, Repr

/-- Opaque external send-amount parameters (passed through unconverted). -/
structure SendAmountParams where
  val : Nat
deriving DecidableEq, Repr

/-- Opaque external send-native-tokens parameters (passed through by `clone`). -/
structure SendNativeTokensParams where
  val : Nat
deriving DecidableEq, Repr

/-- Opaque external send-NFT parameters (passed through by `clone`). -/
structure SendNftParams where
  val : Nat
deriving DecidableEq, Repr

/-- The 256-bit unsigned integer of the `primitive_types` crate.  Only carried,
never computed with, by this fragment. -/
structure U256 where
  val : Nat
deriving DecidableEq, Repr

/-- Opaque external participation event id. -/
structure ParticipationEventId where
  val : Nat
deriving DecidableEq, Repr

/-- Opaque external participation event type. -/
structure ParticipationEventType where
  val : Nat
deriving DecidableEq, Repr

/-- Opaque external participation-event registration options. -/
structure ParticipationEventRegistrationOptions where
  val : Nat
deriving DecidableEq, Repr

/-- Opaque external participation event record. -/
structure ParticipationEvent where
  val : Nat
deriving DecidableEq, Repr

/-- Opaque external participation event together with its nodes. -/
structure ParticipationEventWithNodes where
  val : Nat
deriving DecidableEq, Repr

/-- Opaque external participation event status. -/
structure ParticipationEventStatus where
  val : Nat
deriving DecidableEq, Repr

/-- Opaque external per-account participation overview. -/
structure AccountParticipationOverview where
  val : Nat
deriving DecidableEq, Repr

/-- Opaque external node descriptor. -/
structure Node where
  val : Nat
deriving DecidableEq, Repr

/-- A data-transfer object for an external domain type.  The external
`TryFrom` conversions of the wrapped SDK either produce a domain value or fail
with an engine error; a DTO is embedded as exactly that outcome, kept as data
(`ok` is the converted value when conversion succeeds, `err` the error
reported otherwise). -/
structure ConvDto (α : Type) where
  ok : Option α
  err : Err
deriving DecidableEq, Repr

/-- Outcome of the external `TryFrom` conversion of a DTO. -/
def ConvDto.tryFrom {α : Type} (d : ConvDto α) : Except Err α :=
  match d.ok with
  | some a => Except.ok a
  | none => Except.error d.err

abbrev TransactionOptionsDto := ConvDto TransactionOptions
abbrev BurnDto := ConvDto Burn
abbrev CreateAliasParamsDto := ConvDto CreateAliasParams
abbrev MintNativeTokenParamsDto := ConvDto MintNativeTokenParams
abbrev MintNftParamsDto := ConvDto MintNftParams
abbrev OutputParamsDto := ConvDto OutputParams

/-- Embeds `options.as_ref().map(TransactionOptions::try_from_dto).transpose()`:
an absent DTO converts to `none`, a present one is converted and may fail. -/
def mapTranspose {α : Type} (o : Option (ConvDto α)) : Except Err (Option α) :=
  match o with
  | none => Except.ok none
  | some d => (d.tryFrom).map some

/-- Serialized form of an `Output`.  The external `OutputDto` is data; its
conversion back to an `Output` revalidates the coin amount against the token
supply fetched from the node. -/
structure OutputDto where
  amount : Nat
  meta : Nat
deriving DecidableEq, Repr

/-- Embeds the external `Output::try_from_dto(&dto, token_supply)`: the output
amount is validated against the token supply. -/
def Output.try_from_dto (d : OutputDto) (token_supply : Nat) : Except Err Output :=
  if d.amount ≤ token_supply then Except.ok ⟨d.amount, d.meta⟩
  else Except.error (Err.outputAmount d.amount)

/-- Embeds the external infallible `OutputDto::from(&Output)`. -/
def OutputDto.from (o : Output) : OutputDto := ⟨o.amount, o.meta⟩

/-- Serialized prepared-transaction data.  The external conversion back to the
domain type needs the protocol parameters of the node; `needs` records the
parameters (if any) the conversion insists on, `err` the error it reports on a
mismatch. -/
structure PreparedTransactionDataDto where
  val : PreparedTransactionData
  needs : Option ProtocolParameters
  err : Err
deriving DecidableEq, Repr

/-- Embeds the external `PreparedTransactionData::try_from_dto(&dto, &params)`. -/
def PreparedTransactionData.try_from_dto (d : PreparedTransactionDataDto)
    (p : ProtocolParameters) : Except Err PreparedTransactionData :=
  match d.needs with
  | none => Except.ok d.val
  | some q => if q = p then Except.ok d.val else Except.error d.err

/-- Embeds the external infallible `PreparedTransactionDataDto::from`. -/
def PreparedTransactionDataDto.from (v : PreparedTransactionData) :
    PreparedTransactionDataDto := ⟨v, none, Err.engine 0⟩

/-- Serialized signed-transaction data; conversion mirrors
`PreparedTransactionDataDto`. -/
structure SignedTransactionDataDto where
  val : SignedTransactionData
  needs : Option ProtocolParameters
  err : Err
deriving DecidableEq, Repr

/-- Embeds the external `SignedTransactionData::try_from_dto(&dto, &params)`. -/
def SignedTransactionData.try_from_dto (d : SignedTransactionDataDto)
    (p : ProtocolParameters) : Except Err SignedTransactionData :=
  match d.needs with
  | none => Except.ok d.val
  | some q => if q = p then Except.ok d.val else Except.error d.err

/-- Embeds the external infallible `SignedTransactionDataDto::from`. -/
def SignedTransactionDataDto.from (v : SignedTransactionData) :
    SignedTransactionDataDto := ⟨v, none, Err.engine 0⟩

/-- Embeds the infallible `TransactionDto::from(&Transaction)`. -/
structure TransactionDto where
  val : Transaction
deriving DecidableEq, Repr

def TransactionDto.from (t : Transaction) : TransactionDto := ⟨t⟩

/-- Embeds the infallible `OutputDataDto::from(&OutputData)`. -/
structure OutputDataDto where
  val : OutputData
deriving DecidableEq, Repr

def OutputDataDto.from (d : OutputData) : OutputDataDto := ⟨d⟩

/-- Embeds the infallible `AccountBalanceDto::from(&AccountBalance)`. -/
structure AccountBalanceDto where
  val : AccountBalance
deriving DecidableEq, Repr

def AccountBalanceDto.from (b : AccountBalance) : AccountBalanceDto := ⟨b⟩

/-- Embeds the infallible `MintTokenTransactionDto::from`. -/
structure MintTokenTransactionDto where
  val : MintTokenTransaction
deriving DecidableEq, Repr

def MintTokenTransactionDto.from (t : MintTokenTransaction) :
    MintTokenTransactionDto := ⟨t⟩

/-- Embeds Rust's `u64::from_str`: an optional leading plus sign, then at least
one ASCII digit, rejecting values outside the `u64` range. -/
def u64FromStr (s : String) : Option Nat :=
  let l := s.toList
  let l := match l with
    | '+' :: rest => rest
    | _ => l
  if l.isEmpty then none
  else if l.all Char.isDigit then
    let n := l.foldl (fun a c => 10 * a + (c.toNat - 48)) 0
    if n < 2 ^ 64 then some n else none
  else none

/-- Embeds `U256::try_from(&U256)`.  In the `uint` crate `From<&U256>` is
implemented for `U256`, so the blanket `TryFrom` instance used by the handler
has error type `Infallible` (embedded as `Empty`): the conversion never
fails. -/
def U256.tryFromRef (x : U256) : Except Empty U256 := Except.ok x

end Iota

namespace Iota

/-- The `AccountMethod` command enum of `src/bindings/core/src/method/account.rs`
(all `cfg` features enabled).  Constructor fields are the variant payloads. -/
inductive AccountMethod where
  | Burn (burn : BurnDto) (options : Option TransactionOptionsDto)
  | ConsolidateOutputs (force : Bool) (output_consolidation_threshold : Option Nat)
  | CreateAliasOutput (params : Option CreateAliasParamsDto) (options : Option TransactionOptionsDto)
  | GenerateAddresses (amount : Nat) (options : Option GenerateAddressOptions)
  | GetOutput (output_id : OutputId)
  | GetFoundryOutput (token_id : TokenId)
  | GetOutputsWithAdditionalUnlockConditions (outputs_to_claim : OutputsToClaim)
  | GetTransaction (transaction_id : TransactionId)
  | GetIncomingTransaction (transaction_id : TransactionId)
  | Addresses
  | AddressesWithUnspentOutputs
  | Outputs (filter_options : Option FilterOptions)
  | UnspentOutputs (filter_options : Option FilterOptions)
  | IncomingTransactions
  | Transactions
  | PendingTransactions
  | DecreaseNativeTokenSupply (token_id : TokenId) (melt_amount : U256) (options : Option TransactionOptionsDto)
  | MinimumRequiredStorageDeposit (output : OutputDto)
  | IncreaseNativeTokenSupply (token_id : TokenId) (mint_amount : U256) (options : Option TransactionOptionsDto)
  | MintNativeToken (params : MintNativeTokenParamsDto) (options : Option TransactionOptionsDto)
  | MintNfts (params : List MintNftParamsDto) (options : Option TransactionOptionsDto)
  | GetBalance
  | PrepareOutput (params : OutputParamsDto) (transaction_options : Option TransactionOptionsDto)
  | PrepareTransaction (outputs : List OutputDto) (options : Option TransactionOptionsDto)
  | PrepareSendAmount (params : List SendAmountParams) (options : Option TransactionOptionsDto)
  | RetryTransactionUntilIncluded (transaction_id : TransactionId) (interval : Option Nat) (max_attempts : Option Nat)
  | Sync (options : Option SyncOptions)
  | SendAmount (params : List SendAmountParams) (options : Option TransactionOptionsDto)
  | SendNativeTokens (params : List SendNativeTokensParams) (options : Option TransactionOptionsDto)
  | SendNft (params : List SendNftParams) (options : Option TransactionOptionsDto)
  | SetAlias (alias_value : String)
  | SetDefaultSyncOptions (options : SyncOptions)
  | SendOutputs (outputs : List OutputDto) (options : Option TransactionOptionsDto)
  | SignTransactionEssence (prepared_transaction_data : PreparedTransactionDataDto)
  | SubmitAndStoreTransaction (signed_transaction_data : SignedTransactionDataDto)
  | ClaimOutputs (output_ids_to_claim : List OutputId)
  | Vote (event_id : Option ParticipationEventId) (answers : Option (List Nat))
  | StopParticipating (event_id : ParticipationEventId)
  | GetVotingPower
  | GetParticipationOverview (event_ids : Option (List ParticipationEventId))
  | IncreaseVotingPower (amount : String)
  | DecreaseVotingPower (amount : String)
  | RegisterParticipationEvents (options : ParticipationEventRegistrationOptions)
  | DeregisterParticipationEvent (event_id : ParticipationEventId)
  | GetParticipationEvent (event_id : ParticipationEventId)
  | GetParticipationEventIds (node : Node) (event_type : Option ParticipationEventType)
  | GetParticipationEventStatus (event_id : ParticipationEventId)
  | GetParticipationEvents
deriving DecidableEq, Repr

/-- The external account handle, embedded as a record of result maps: one field
per engine operation the handler can invoke, each mapping the forwarded
arguments to the engine's (opaque, arbitrary) result.  Operations whose Rust
signature has no `Result` (the local lookups and listings) map to plain
values.  The three `client_*` fields embed the getters the handler reaches
through `account.client()`. -/
structure Account where
  burn : Burn → Option TransactionOptions → Except Err Transaction
  consolidate_outputs : Bool → Option Nat → Except Err Transaction
  create_alias_output : Option CreateAliasParams → Option TransactionOptions → Except Err Transaction
  generate_addresses : Nat → Option GenerateAddressOptions → Except Err (List AccountAddress)
  get_unlockable_outputs_with_additional_unlock_conditions : OutputsToClaim → Except Err (List OutputId)
  get_output : OutputId → Option OutputData
  get_foundry_output : TokenId → Except Err Output
  get_transaction : TransactionId → Option Transaction
  get_incoming_transaction : TransactionId → Option Transaction
  addresses : Except Err (List AccountAddress)
  addresses_with_unspent_outputs : Except Err (List AddressWithUnspentOutputs)
  outputs : Option FilterOptions → Except Err (List OutputData)
  unspent_outputs : Option FilterOptions → Except Err (List OutputData)
  incoming_transactions : List Transaction
  transactions : List Transaction
  pending_transactions : List Transaction
  decrease_native_token_supply : TokenId → U256 → Option TransactionOptions → Except Err Transaction
  increase_native_token_supply : TokenId → U256 → Option TransactionOptions → Except Err MintTokenTransaction
  mint_native_token : MintNativeTokenParams → Option TransactionOptions → Except Err MintTokenTransaction
  mint_nfts : List MintNftParams → Option TransactionOptions → Except Err Transaction
  balance : Except Err AccountBalance
  prepare_output : OutputParams → Option TransactionOptions → Except Err Output
  prepare_send_amount : List SendAmountParams → Option TransactionOptions → Except Err PreparedTransactionData
  prepare_transaction : List Output → Option TransactionOptions → Except Err PreparedTransactionData
  retry_transaction_until_included : TransactionId → Option Nat → Option Nat → Except Err BlockId
  sync : Option SyncOptions → Except Err AccountBalance
  send_amount : List SendAmountParams → Option TransactionOptions → Except Err Transaction
  send_native_tokens : List SendNativeTokensParams → Option TransactionOptions → Except Err Transaction
  send_nft : List SendNftParams → Option TransactionOptions → Except Err Transaction
  set_alias : String → Except Err Unit
  set_default_sync_options : SyncOptions → Except Err Unit
  send : List Output → Option TransactionOptions → Except Err Transaction
  sign_transaction_essence : PreparedTransactionData → Except Err SignedTransactionData
  submit_and_store_transaction : SignedTransactionData → Except Err Transaction
  claim_outputs : List OutputId → Except Err Transaction
  vote : Option ParticipationEventId → Option (List Nat) → Except Err Transaction
  stop_participating : ParticipationEventId → Except Err Transaction
  get_voting_power : Except Err Nat
  get_participation_overview : Option (List ParticipationEventId) → Except Err AccountParticipationOverview
  increase_voting_power : Nat → Except Err Transaction
  decrease_voting_power : Nat → Except Err Transaction
  register_participation_events : ParticipationEventRegistrationOptions → Except Err (List ParticipationEvent)
  deregister_participation_event : ParticipationEventId → Except Err Unit
  get_participation_event : ParticipationEventId → Except Err ParticipationEventWithNodes
  get_participation_event_ids : Node → Option ParticipationEventType → Except Err (List ParticipationEventId)
  get_participation_event_status : ParticipationEventId → Except Err ParticipationEventStatus
  get_participation_events : Except Err (List ParticipationEvent)
  client_get_token_supply : Except Err Nat
  client_get_rent_structure : Except Err RentStructure
  client_get_protocol_parameters : Except Err ProtocolParameters

/-- Pure functions of the wrapped SDK used by the handler outside the account
handle: `Rent::rent_cost` on an `Output`.  Kept abstract as an environment so
that the handler provably performs no storage-deposit accounting itself. -/
structure Sdk where
  rent_cost : Output → RentStructure → Nat

/-- One call made on the external handle, with the exact argument values the
handler passed. -/
inductive EngineCall where
  | burn (b : Burn) (o : Option TransactionOptions)
  | consolidate_outputs (force : Bool) (threshold : Option Nat)
  | create_alias_output (p : Option CreateAliasParams) (o : Option TransactionOptions)
  | generate_addresses (amount : Nat) (o : Option GenerateAddressOptions)
  | get_unlockable_outputs_with_additional_unlock_conditions (c : OutputsToClaim)
  | get_output (i : OutputId)
  | get_foundry_output (t : TokenId)
  | get_transaction (i : TransactionId)
  | get_incoming_transaction (i : TransactionId)
  | addresses
  | addresses_with_unspent_outputs
  | outputs (f : Option FilterOptions)
  | unspent_outputs (f : Option FilterOptions)
  | incoming_transactions
  | transactions
  | pending_transactions
  | decrease_native_token_supply (t : TokenId) (a : U256) (o : Option TransactionOptions)
  | increase_native_token_supply (t : TokenId) (a : U256) (o : Option TransactionOptions)
  | mint_native_token (p : MintNativeTokenParams) (o : Option TransactionOptions)
  | mint_nfts (p : List MintNftParams) (o : Option TransactionOptions)
  | balance
  | prepare_output (p : OutputParams) (o : Option TransactionOptions)
  | prepare_send_amount (p : List SendAmountParams) (o : Option TransactionOptions)
  | prepare_transaction (p : List Output) (o : Option TransactionOptions)
  | retry_transaction_until_included (i : TransactionId) (iv : Option Nat) (ma : Option Nat)
  | sync (o : Option SyncOptions)
  | send_amount (p : List SendAmountParams) (o : Option TransactionOptions)
  | send_native_tokens (p : List SendNativeTokensParams) (o : Option TransactionOptions)
  | send_nft (p : List SendNftParams) (o : Option TransactionOptions)
  | set_alias (a : String)
  | set_default_sync_options (o : SyncOptions)
  | send (p : List Output) (o : Option TransactionOptions)
  | sign_transaction_essence (p : PreparedTransactionData)
  | submit_and_store_transaction (s : SignedTransactionData)
  | claim_outputs (ids : List OutputId)
  | vote (e : Option ParticipationEventId) (a : Option (List Nat))
  | stop_participating (e : ParticipationEventId)
  | get_voting_power
  | get_participation_overview (e : Option (List ParticipationEventId))
  | increase_voting_power (a : Nat)
  | decrease_voting_power (a : Nat)
  | register_participation_events (o : ParticipationEventRegistrationOptions)
  | deregister_participation_event (e : ParticipationEventId)
  | get_participation_event (e : ParticipationEventId)
  | get_participation_event_ids (n : Node) (t : Option ParticipationEventType)
  | get_participation_event_status (e : ParticipationEventId)
  | get_participation_events
  | client_get_token_supply
  | client_get_rent_structure
  | client_get_protocol_parameters
deriving DecidableEq, Repr

/-- Whether a recorded call is on the account handle itself, as opposed to the
client handle reached through `account.client()`. -/
def EngineCall.isAccountCall : EngineCall → Bool
  | .client_get_token_supply => false
  | .client_get_rent_structure => false
  | .client_get_protocol_parameters => false
  | _ => true

/-- The `Response` envelope variants produced by the account handler (from the
crate's `Response` enum, restricted to the variants this dispatch emits). -/
inductive Response where
  | SentTransaction (t : TransactionDto)
  | GeneratedAddress (a : List AccountAddress)
  | OutputIds (ids : List OutputId)
  | OutputData (d : Option OutputDataDto)
  | Output (o : OutputDto)
  | Transaction (t : Option TransactionDto)
  | Addresses (a : List AccountAddress)
  | AddressesWithUnspentOutputs (a : List AddressWithUnspentOutputs)
  | OutputsData (d : List OutputDataDto)
  | Transactions (t : List TransactionDto)
  | MintTokenTransaction (t : MintTokenTransactionDto)
  | MinimumRequiredStorageDeposit (amount : String)
  | Balance (b : AccountBalanceDto)
  | PreparedTransaction (p : PreparedTransactionDataDto)
  | BlockId (b : BlockId)
  | SignedTransactionData (s : SignedTransactionDataDto)
  | Ok
  | VotingPower (v : String)
  | AccountParticipationOverview (o : AccountParticipationOverview)
  | ParticipationEvents (e : List ParticipationEvent)
  | ParticipationEvent (e : ParticipationEventWithNodes)
  | ParticipationEventIds (ids : List ParticipationEventId)
  | ParticipationEventStatus (s : ParticipationEventStatus)
deriving DecidableEq, Repr

/-- Result of one dispatch: the handler's `Result<Response>` together with the
trace of engine calls it made, in order. -/
abbrev HandlerOut := Except Err Response × List EngineCall

/-- Records an engine call `c` with result `r`: on an engine error the `?`
operator aborts with that error; on success the continuation runs. -/
def emit {α : Type} (c : EngineCall) (r : Except Err α) (k : α → HandlerOut) : HandlerOut :=
  match r with
  | .error e => (.error e, [c])
  | .ok a => ((k a).1, c :: (k a).2)

/-- Records an engine call `c` that cannot fail (no `Result` in its Rust
signature), returning a plain value to the continuation. -/
def emitPure {α : Type} (c : EngineCall) (v : α) (k : α → HandlerOut) : HandlerOut :=
  ((k v).1, c :: (k v).2)

/-- Runs a local (conversion) step under the `?` operator: no engine call is
recorded; a conversion error aborts the dispatch. -/
def convBind {α : Type} (r : Except Err α) (k : α → HandlerOut) : HandlerOut :=
  match r with
  | .error e => (.error e, [])
  | .ok a => k a

/-- Wraps a successful response with an empty remaining trace. -/
def pureOut (r : Response) : HandlerOut := (.ok r, [])

end Iota

namespace Iota


/-- Embeds `iter().map(TryFrom::try_from).collect::<Result<Vec<_>>>()`: the
conversions run left to right and the first failure aborts with its error. -/
def collectConv {α : Type} : List (ConvDto α) → Except Err (List α)
  | [] => Except.ok []
  | d :: rest =>
    match d.tryFrom with
    | .error e => Except.error e
    | .ok a =>
      match collectConv rest with
      | .error e => Except.error e
      | .ok tail => Except.ok (a :: tail)

/-- Embeds `iter().map(|o| Output::try_from_dto(o, token_supply)).collect()`:
fail-fast conversion of a list of output DTOs. -/
def collectOutputs (token_supply : Nat) : List OutputDto → Except Err (List Output)
  | [] => Except.ok []
  | d :: rest =>
    match Output.try_from_dto d token_supply with
    | .error e => Except.error e
    | .ok o =>
      match collectOutputs token_supply rest with
      | .error e => Except.error e
      | .ok tail => Except.ok (o :: tail)

/-- Embedding of `call_account_method_internal` from
`src/bindings/core/src/method_handler/account.rs`.  Each match arm performs the
same conversions, engine calls (recorded in the trace) and response wrapping as
the corresponding Rust arm, in source order; `?` on a conversion or engine
result aborts with the error unchanged. -/
def call_account_method_internal (env : Sdk) (account : Account) :
    AccountMethod → HandlerOut
  | .Burn burn options =>
    convBind (ConvDto.tryFrom burn) fun b =>
    convBind (mapTranspose options) fun o =>
    emit (.burn b o) (account.burn b o) fun transaction =>
    pureOut (.SentTransaction (TransactionDto.from transaction))
  | .ConsolidateOutputs force output_consolidation_threshold =>
    emit (.consolidate_outputs force output_consolidation_threshold)
        (account.consolidate_outputs force output_consolidation_threshold) fun transaction =>
    pureOut (.SentTransaction (TransactionDto.from transaction))
  | .CreateAliasOutput params options =>
    convBind (mapTranspose params) fun p =>
    convBind (mapTranspose options) fun o =>
    emit (.create_alias_output p o) (account.create_alias_output p o) fun transaction =>
    pureOut (.SentTransaction (TransactionDto.from transaction))
  | .GenerateAddresses amount options =>
    emit (.generate_addresses amount options) (account.generate_addresses amount options) fun address =>
    pureOut (.GeneratedAddress address)
  | .GetOutput output_id =>
    emitPure (.get_output output_id) (account.get_output output_id) fun output_data =>
    pureOut (.OutputData (output_data.map OutputDataDto.from))
  | .GetFoundryOutput token_id =>
    emit (.get_foundry_output token_id) (account.get_foundry_output token_id) fun output =>
    pureOut (.Output (OutputDto.from output))
  | .GetOutputsWithAdditionalUnlockConditions outputs_to_claim =>
    emit (.get_unlockable_outputs_with_additional_unlock_conditions outputs_to_claim)
        (account.get_unlockable_outputs_with_additional_unlock_conditions outputs_to_claim) fun output_ids =>
    pureOut (.OutputIds output_ids)
  | .GetTransaction transaction_id =>
    emitPure (.get_transaction transaction_id) (account.get_transaction transaction_id) fun transaction =>
    pureOut (.Transaction (transaction.map TransactionDto.from))
  | .GetIncomingTransaction transaction_id =>
    emitPure (.get_incoming_transaction transaction_id)
        (account.get_incoming_transaction transaction_id) fun transaction =>
    pureOut (match transaction with
      | none => .Transaction none
      | some t => .Transaction (some (TransactionDto.from t)))
  | .Addresses =>
    emit .addresses account.addresses fun a =>
    pureOut (.Addresses a)
  | .AddressesWithUnspentOutputs =>
    emit .addresses_with_unspent_outputs account.addresses_with_unspent_outputs fun a =>
    pureOut (.AddressesWithUnspentOutputs a)
  | .Outputs filter_options =>
    emit (.outputs filter_options) (account.outputs filter_options) fun outs =>
    pureOut (.OutputsData (outs.map OutputDataDto.from))
  | .UnspentOutputs filter_options =>
    emit (.unspent_outputs filter_options) (account.unspent_outputs filter_options) fun outs =>
    pureOut (.OutputsData (outs.map OutputDataDto.from))
  | .IncomingTransactions =>
    emitPure .incoming_transactions account.incoming_transactions fun ts =>
    pureOut (.Transactions (ts.map TransactionDto.from))
  | .Transactions =>
    emitPure .transactions account.transactions fun ts =>
    pureOut (.Transactions (ts.map TransactionDto.from))
  | .PendingTransactions =>
    emitPure .pending_transactions account.pending_transactions fun ts =>
    pureOut (.Transactions (ts.map TransactionDto.from))
  | .DecreaseNativeTokenSupply token_id melt_amount options =>
    convBind (match U256.tryFromRef melt_amount with
      | .ok a => Except.ok a
      | .error _ => Except.error (Err.invalidField "melt_amount")) fun amt =>
    convBind (mapTranspose options) fun o =>
    emit (.decrease_native_token_supply token_id amt o)
        (account.decrease_native_token_supply token_id amt o) fun transaction =>
    pureOut (.SentTransaction (TransactionDto.from transaction))
  | .MinimumRequiredStorageDeposit output =>
    emit .client_get_token_supply account.client_get_token_supply fun token_supply =>
    convBind (Output.try_from_dto output token_supply) fun out =>
    emit .client_get_rent_structure account.client_get_rent_structure fun rent_structure =>
    pureOut (.MinimumRequiredStorageDeposit (toString (env.rent_cost out rent_structure)))
  | .IncreaseNativeTokenSupply token_id mint_amount options =>
    convBind (match U256.tryFromRef mint_amount with
      | .ok a => Except.ok a
      | .error _ => Except.error (Err.invalidField "mint_amount")) fun amt =>
    convBind (mapTranspose options) fun o =>
    emit (.increase_native_token_supply token_id amt o)
        (account.increase_native_token_supply token_id amt o) fun transaction =>
    pureOut (.MintTokenTransaction (MintTokenTransactionDto.from transaction))
  | .MintNativeToken params options =>
    convBind (ConvDto.tryFrom params) fun p =>
    convBind (mapTranspose options) fun o =>
    emit (.mint_native_token p o) (account.mint_native_token p o) fun transaction =>
    pureOut (.MintTokenTransaction (MintTokenTransactionDto.from transaction))
  | .MintNfts params options =>
    convBind (collectConv params) fun p =>
    convBind (mapTranspose options) fun o =>
    emit (.mint_nfts p o) (account.mint_nfts p o) fun transaction =>
    pureOut (.SentTransaction (TransactionDto.from transaction))
  | .GetBalance =>
    emit .balance account.balance fun b =>
    pureOut (.Balance (AccountBalanceDto.from b))
  | .PrepareOutput params transaction_options =>
    convBind (ConvDto.tryFrom params) fun p =>
    convBind (mapTranspose transaction_options) fun o =>
    emit (.prepare_output p o) (account.prepare_output p o) fun output =>
    pureOut (.Output (OutputDto.from output))
  | .PrepareSendAmount params options =>
    convBind (mapTranspose options) fun o =>
    emit (.prepare_send_amount params o) (account.prepare_send_amount params o) fun data =>
    pureOut (.PreparedTransaction (PreparedTransactionDataDto.from data))
  | .PrepareTransaction outputs options =>
    emit .client_get_token_supply account.client_get_token_supply fun token_supply =>
    convBind (collectOutputs token_supply outputs) fun outs =>
    convBind (mapTranspose options) fun o =>
    emit (.prepare_transaction outs o) (account.prepare_transaction outs o) fun data =>
    pureOut (.PreparedTransaction (PreparedTransactionDataDto.from data))
  | .RetryTransactionUntilIncluded transaction_id interval max_attempts =>
    emit (.retry_transaction_until_included transaction_id interval max_attempts)
        (account.retry_transaction_until_included transaction_id interval max_attempts) fun block_id =>
    pureOut (.BlockId block_id)
  | .Sync options =>
    emit (.sync options) (account.sync options) fun b =>
    pureOut (.Balance (AccountBalanceDto.from b))
  | .SendAmount params options =>
    convBind (mapTranspose options) fun o =>
    emit (.send_amount params o) (account.send_amount params o) fun transaction =>
    pureOut (.SentTransaction (TransactionDto.from transaction))
  | .SendNativeTokens params options =>
    convBind (mapTranspose options) fun o =>
    emit (.send_native_tokens params o) (account.send_native_tokens params o) fun transaction =>
    pureOut (.SentTransaction (TransactionDto.from transaction))
  | .SendNft params options =>
    convBind (mapTranspose options) fun o =>
    emit (.send_nft params o) (account.send_nft params o) fun transaction =>
    pureOut (.SentTransaction (TransactionDto.from transaction))
  | .SetAlias alias_value =>
    emit (.set_alias alias_value) (account.set_alias alias_value) fun _ =>
    pureOut .Ok
  | .SetDefaultSyncOptions options =>
    emit (.set_default_sync_options options) (account.set_default_sync_options options) fun _ =>
    pureOut .Ok
  | .SendOutputs outputs options =>
    emit .client_get_token_supply account.client_get_token_supply fun token_supply =>
    convBind (collectOutputs token_supply outputs) fun outs =>
    convBind (mapTranspose options) fun o =>
    emit (.send outs o) (account.send outs o) fun transaction =>
    pureOut (.SentTransaction (TransactionDto.from transaction))
  | .SignTransactionEssence prepared_transaction_data =>
    emit .client_get_protocol_parameters account.client_get_protocol_parameters fun params =>
    convBind (PreparedTransactionData.try_from_dto prepared_transaction_data params) fun p =>
    emit (.sign_transaction_essence p) (account.sign_transaction_essence p) fun signed =>
    pureOut (.SignedTransactionData (SignedTransactionDataDto.from signed))
  | .SubmitAndStoreTransaction signed_transaction_data =>
    emit .client_get_protocol_parameters account.client_get_protocol_parameters fun params =>
    convBind (SignedTransactionData.try_from_dto signed_transaction_data params) fun s =>
    emit (.submit_and_store_transaction s) (account.submit_and_store_transaction s) fun transaction =>
    pureOut (.SentTransaction (TransactionDto.from transaction))
  | .ClaimOutputs output_ids_to_claim =>
    emit (.claim_outputs output_ids_to_claim) (account.claim_outputs output_ids_to_claim) fun transaction =>
    pureOut (.SentTransaction (TransactionDto.from transaction))
  | .Vote event_id answers =>
    emit (.vote event_id answers) (account.vote event_id answers) fun transaction =>
    pureOut (.SentTransaction (TransactionDto.from transaction))
  | .StopParticipating event_id =>
    emit (.stop_participating event_id) (account.stop_participating event_id) fun transaction =>
    pureOut (.SentTransaction (TransactionDto.from transaction))
  | .GetVotingPower =>
    emit .get_voting_power account.get_voting_power fun voting_power =>
    pureOut (.VotingPower (toString voting_power))
  | .GetParticipationOverview event_ids =>
    emit (.get_participation_overview event_ids) (account.get_participation_overview event_ids) fun o =>
    pureOut (.AccountParticipationOverview o)
  | .IncreaseVotingPower amount =>
    convBind (match u64FromStr amount with
      | some n => Except.ok n
      | none => Except.error (Err.invalidAmount amount)) fun n =>
    emit (.increase_voting_power n) (account.increase_voting_power n) fun transaction =>
    pureOut (.SentTransaction (TransactionDto.from transaction))
  | .DecreaseVotingPower amount =>
    convBind (match u64FromStr amount with
      | some n => Except.ok n
      | none => Except.error (Err.invalidAmount amount)) fun n =>
    emit (.decrease_voting_power n) (account.decrease_voting_power n) fun transaction =>
    pureOut (.SentTransaction (TransactionDto.from transaction))
  | .RegisterParticipationEvents options =>
    emit (.register_participation_events options) (account.register_participation_events options) fun events =>
    pureOut (.ParticipationEvents events)
  | .DeregisterParticipationEvent event_id =>
    emit (.deregister_participation_event event_id) (account.deregister_participation_event event_id) fun _ =>
    pureOut .Ok
  | .GetParticipationEvent event_id =>
    emit (.get_participation_event event_id) (account.get_participation_event event_id) fun e =>
    pureOut (.ParticipationEvent e)
  | .GetParticipationEventIds node event_type =>
    emit (.get_participation_event_ids node event_type)
        (account.get_participation_event_ids node event_type) fun ids =>
    pureOut (.ParticipationEventIds ids)
  | .GetParticipationEventStatus event_id =>
    emit (.get_participation_event_status event_id)
        (account.get_participation_event_status event_id) fun s =>
    pureOut (.ParticipationEventStatus s)
  | .GetParticipationEvents =>
    emit .get_participation_events account.get_participation_events fun events =>
    pureOut (.ParticipationEvents events)

end Iota

namespace Iota

/-- Names of the `Response` variants, used to compare a produced response with
the variant the command vocabulary declares. -/
inductive ResponseTag where
  | SentTransaction
  | GeneratedAddress
  | OutputIds
  | OutputData
  | Output
  | Transaction
  | Addresses
  | AddressesWithUnspentOutputs
  | OutputsData
  | Transactions
  | MintTokenTransaction
  | MinimumRequiredStorageDeposit
  | Balance
  | PreparedTransaction
  | BlockId
  | SignedTransactionData
  | Ok
  | VotingPower
  | AccountParticipationOverview
  | ParticipationEvents
  | ParticipationEvent
  | ParticipationEventIds
  | ParticipationEventStatus
deriving DecidableEq, Repr

/-- The variant name of a response value. -/
def Response.tag : Response → ResponseTag
  | .SentTransaction _ => .SentTransaction
  | .GeneratedAddress _ => .GeneratedAddress
  | .OutputIds _ => .OutputIds
  | .OutputData _ => .OutputData
  | .Output _ => .Output
  | .Transaction _ => .Transaction
  | .Addresses _ => .Addresses
  | .AddressesWithUnspentOutputs _ => .AddressesWithUnspentOutputs
  | .OutputsData _ => .OutputsData
  | .Transactions _ => .Transactions
  | .MintTokenTransaction _ => .MintTokenTransaction
  | .MinimumRequiredStorageDeposit _ => .MinimumRequiredStorageDeposit
  | .Balance _ => .Balance
  | .PreparedTransaction _ => .PreparedTransaction
  | .BlockId _ => .BlockId
  | .SignedTransactionData _ => .SignedTransactionData
  | .Ok => .Ok
  | .VotingPower _ => .VotingPower
  | .AccountParticipationOverview _ => .AccountParticipationOverview
  | .ParticipationEvents _ => .ParticipationEvents
  | .ParticipationEvent _ => .ParticipationEvent
  | .ParticipationEventIds _ => .ParticipationEventIds
  | .ParticipationEventStatus _ => .ParticipationEventStatus

/-- The response variant each command declares in its doc comment
("Expected response: ...") in `src/bindings/core/src/method/account.rs`.
This is the spec side of claim C2, transcribed from the vocabulary, and is to
be compared with what the handler actually returns. -/
def expectedResponse : AccountMethod → ResponseTag
  | .Burn .. => .SentTransaction
  | .ConsolidateOutputs .. => .SentTransaction
  | .CreateAliasOutput .. => .SentTransaction
  | .GenerateAddresses .. => .GeneratedAddress
  | .GetOutput .. => .OutputData
  | .GetFoundryOutput .. => .Output
  | .GetOutputsWithAdditionalUnlockConditions .. => .OutputIds
  | .GetTransaction .. => .Transaction
  | .GetIncomingTransaction .. => .Transaction
  | .Addresses => .Addresses
  | .AddressesWithUnspentOutputs => .AddressesWithUnspentOutputs
  | .Outputs .. => .OutputsData
  | .UnspentOutputs .. => .OutputsData
  | .IncomingTransactions => .Transactions
  | .Transactions => .Transactions
  | .PendingTransactions => .Transactions
  | .DecreaseNativeTokenSupply .. => .SentTransaction
  | .MinimumRequiredStorageDeposit .. => .MinimumRequiredStorageDeposit
  | .IncreaseNativeTokenSupply .. => .MintTokenTransaction
  | .MintNativeToken .. => .MintTokenTransaction
  | .MintNfts .. => .SentTransaction
  | .GetBalance => .Balance
  | .PrepareOutput .. => .Output
  | .PrepareTransaction .. => .PreparedTransaction
  | .PrepareSendAmount .. => .PreparedTransaction
  | .RetryTransactionUntilIncluded .. => .BlockId
  | .Sync .. => .Balance
  | .SendAmount .. => .SentTransaction
  | .SendNativeTokens .. => .SentTransaction
  | .SendNft .. => .SentTransaction
  | .SetAlias .. => .Ok
  | .SetDefaultSyncOptions .. => .Ok
  | .SendOutputs .. => .SentTransaction
  | .SignTransactionEssence .. => .SignedTransactionData
  | .SubmitAndStoreTransaction .. => .SentTransaction
  | .ClaimOutputs .. => .SentTransaction
  | .Vote .. => .SentTransaction
  | .StopParticipating .. => .SentTransaction
  | .GetVotingPower => .VotingPower
  | .GetParticipationOverview .. => .AccountParticipationOverview
  | .IncreaseVotingPower .. => .SentTransaction
  | .DecreaseVotingPower .. => .SentTransaction
  | .RegisterParticipationEvents .. => .ParticipationEvents
  | .DeregisterParticipationEvent .. => .Ok
  | .GetParticipationEvent .. => .ParticipationEvent
  | .GetParticipationEventIds .. => .ParticipationEventIds
  | .GetParticipationEventStatus .. => .ParticipationEventStatus
  | .GetParticipationEvents => .ParticipationEvents

end Iota

namespace Iota

/-- Error component of an engine result. -/
def exceptErr {α : Type} : Except Err α → Option Err
  | .error e => some e
  | .ok _ => none

/-- The error (if any) the external handle returns for a given call: the
engine side of each dispatch, read off the `Account` record.  Calls whose Rust
signature has no `Result` never produce one. -/
def callErr (acct : Account) : EngineCall → Option Err
  | .burn b o => exceptErr (acct.burn b o)
  | .consolidate_outputs f t => exceptErr (acct.consolidate_outputs f t)
  | .create_alias_output p o => exceptErr (acct.create_alias_output p o)
  | .generate_addresses a o => exceptErr (acct.generate_addresses a o)
  | .get_unlockable_outputs_with_additional_unlock_conditions c =>
      exceptErr (acct.get_unlockable_outputs_with_additional_unlock_conditions c)
  | .get_output _ => none
  | .get_foundry_output t => exceptErr (acct.get_foundry_output t)
  | .get_transaction _ => none
  | .get_incoming_transaction _ => none
  | .addresses => exceptErr acct.addresses
  | .addresses_with_unspent_outputs => exceptErr acct.addresses_with_unspent_outputs
  | .outputs f => exceptErr (acct.outputs f)
  | .unspent_outputs f => exceptErr (acct.unspent_outputs f)
  | .incoming_transactions => none
  | .transactions => none
  | .pending_transactions => none
  | .decrease_native_token_supply t a o => exceptErr (acct.decrease_native_token_supply t a o)
  | .increase_native_token_supply t a o => exceptErr (acct.increase_native_token_supply t a o)
  | .mint_native_token p o => exceptErr (acct.mint_native_token p o)
  | .mint_nfts p o => exceptErr (acct.mint_nfts p o)
  | .balance => exceptErr acct.balance
  | .prepare_output p o => exceptErr (acct.prepare_output p o)
  | .prepare_send_amount p o => exceptErr (acct.prepare_send_amount p o)
  | .prepare_transaction p o => exceptErr (acct.prepare_transaction p o)
  | .retry_transaction_until_included i iv ma =>
      exceptErr (acct.retry_transaction_until_included i iv ma)
  | .sync o => exceptErr (acct.sync o)
  | .send_amount p o => exceptErr (acct.send_amount p o)
  | .send_native_tokens p o => exceptErr (acct.send_native_tokens p o)
  | .send_nft p o => exceptErr (acct.send_nft p o)
  | .set_alias a => exceptErr (acct.set_alias a)
  | .set_default_sync_options o => exceptErr (acct.set_default_sync_options o)
  | .send p o => exceptErr (acct.send p o)
  | .sign_transaction_essence p => exceptErr (acct.sign_transaction_essence p)
  | .submit_and_store_transaction s => exceptErr (acct.submit_and_store_transaction s)
  | .claim_outputs ids => exceptErr (acct.claim_outputs ids)
  | .vote e a => exceptErr (acct.vote e a)
  | .stop_participating e => exceptErr (acct.stop_participating e)
  | .get_voting_power => exceptErr acct.get_voting_power
  | .get_participation_overview e => exceptErr (acct.get_participation_overview e)
  | .increase_voting_power a => exceptErr (acct.increase_voting_power a)
  | .decrease_voting_power a => exceptErr (acct.decrease_voting_power a)
  | .register_participation_events o => exceptErr (acct.register_participation_events o)
  | .deregister_participation_event e => exceptErr (acct.deregister_participation_event e)
  | .get_participation_event e => exceptErr (acct.get_participation_event e)
  | .get_participation_event_ids n t => exceptErr (acct.get_participation_event_ids n t)
  | .get_participation_event_status e => exceptErr (acct.get_participation_event_status e)
  | .get_participation_events => exceptErr acct.get_participation_events
  | .client_get_token_supply => exceptErr acct.client_get_token_supply
  | .client_get_rent_structure => exceptErr acct.client_get_rent_structure
  | .client_get_protocol_parameters => exceptErr acct.client_get_protocol_parameters

/-- Error of a conversion outcome as a (zero- or one-element) list. -/
def convErr {α : Type} : Except Err α → List Err
  | .error e => [e]
  | .ok _ => []

/-- The literal field-validation and DTO-conversion errors the handler itself
can raise for a given command payload, before or between engine calls.  For the
voting-power commands this is the `InvalidAmount` re-throw of a failed numeric
string parse; for DTO-carrying commands it is the error of the external
conversion; everything else has none. -/
def payloadConvErrs : AccountMethod → List Err
  | .Burn burn options => convErr (ConvDto.tryFrom burn) ++ convErr (mapTranspose options)
  | .CreateAliasOutput params options =>
      convErr (mapTranspose params) ++ convErr (mapTranspose options)
  | .DecreaseNativeTokenSupply _ _ options => convErr (mapTranspose options)
  | .IncreaseNativeTokenSupply _ _ options => convErr (mapTranspose options)
  | .MinimumRequiredStorageDeposit output => [Err.outputAmount output.amount]
  | .MintNativeToken params options =>
      convErr (ConvDto.tryFrom params) ++ convErr (mapTranspose options)
  | .MintNfts params options =>
      convErr (collectConv params) ++ convErr (mapTranspose options)
  | .PrepareOutput params transaction_options =>
      convErr (ConvDto.tryFrom params) ++ convErr (mapTranspose transaction_options)
  | .PrepareTransaction outputs options =>
      outputs.map (fun o => Err.outputAmount o.amount) ++ convErr (mapTranspose options)
  | .PrepareSendAmount _ options => convErr (mapTranspose options)
  | .SendAmount _ options => convErr (mapTranspose options)
  | .SendNativeTokens _ options => convErr (mapTranspose options)
  | .SendNft _ options => convErr (mapTranspose options)
  | .SendOutputs outputs options =>
      outputs.map (fun o => Err.outputAmount o.amount) ++ convErr (mapTranspose options)
  | .SignTransactionEssence d => [d.err]
  | .SubmitAndStoreTransaction d => [d.err]
  | .IncreaseVotingPower amount =>
      match u64FromStr amount with
      | some _ => []
      | none => [Err.invalidAmount amount]
  | .DecreaseVotingPower amount =>
      match u64FromStr amount with
      | some _ => []
      | none => [Err.invalidAmount amount]
  | _ => []

/-- The external handle on which every fallible operation fails with the same
engine error `e` (and the infallible local lookups find nothing). -/
def failAccount (e : Err) : Account where
  burn := fun _ _ => .error e
  consolidate_outputs := fun _ _ => .error e
  create_alias_output := fun _ _ => .error e
  generate_addresses := fun _ _ => .error e
  get_unlockable_outputs_with_additional_unlock_conditions := fun _ => .error e
  get_output := fun _ => none
  get_foundry_output := fun _ => .error e
  get_transaction := fun _ => none
  get_incoming_transaction := fun _ => none
  addresses := .error e
  addresses_with_unspent_outputs := .error e
  outputs := fun _ => .error e
  unspent_outputs := fun _ => .error e
  incoming_transactions := []
  transactions := []
  pending_transactions := []
  decrease_native_token_supply := fun _ _ _ => .error e
  increase_native_token_supply := fun _ _ _ => .error e
  mint_native_token := fun _ _ => .error e
  mint_nfts := fun _ _ => .error e
  balance := .error e
  prepare_output := fun _ _ => .error e
  prepare_send_amount := fun _ _ => .error e
  prepare_transaction := fun _ _ => .error e
  retry_transaction_until_included := fun _ _ _ => .error e
  sync := fun _ => .error e
  send_amount := fun _ _ => .error e
  send_native_tokens := fun _ _ => .error e
  send_nft := fun _ _ => .error e
  set_alias := fun _ => .error e
  set_default_sync_options := fun _ => .error e
  send := fun _ _ => .error e
  sign_transaction_essence := fun _ => .error e
  submit_and_store_transaction := fun _ => .error e
  claim_outputs := fun _ => .error e
  vote := fun _ _ => .error e
  stop_participating := fun _ => .error e
  get_voting_power := .error e
  get_participation_overview := fun _ => .error e
  increase_voting_power := fun _ => .error e
  decrease_voting_power := fun _ => .error e
  register_participation_events := fun _ => .error e
  deregister_participation_event := fun _ => .error e
  get_participation_event := fun _ => .error e
  get_participation_event_ids := fun _ _ => .error e
  get_participation_event_status := fun _ => .error e
  get_participation_events := .error e
  client_get_token_supply := .error e
  client_get_rent_structure := .error e
  client_get_protocol_parameters := .error e

/-- Whether the engine operation a command dispatches to can fail at all: the
six commands backed by plain (non-`Result`) lookups and listings cannot. -/
def dispatchesFallible : AccountMethod → Bool
  | .GetOutput _ => false
  | .GetTransaction _ => false
  | .GetIncomingTransaction _ => false
  | .IncomingTransactions => false
  | .Transactions => false
  | .PendingTransactions => false
  | _ => true

/-- Whether all of a command's own payload conversions (performed before its
first fallible step can be blamed on the engine) succeed. -/
def payloadOk : AccountMethod → Bool
  | .Burn burn options =>
      (ConvDto.tryFrom burn).isOk && (mapTranspose options).isOk
  | .CreateAliasOutput params options =>
      (mapTranspose params).isOk && (mapTranspose options).isOk
  | .DecreaseNativeTokenSupply _ _ options => (mapTranspose options).isOk
  | .IncreaseNativeTokenSupply _ _ options => (mapTranspose options).isOk
  | .MintNativeToken params options =>
      (ConvDto.tryFrom params).isOk && (mapTranspose options).isOk
  | .MintNfts params options =>
      (collectConv params).isOk && (mapTranspose options).isOk
  | .PrepareOutput params transaction_options =>
      (ConvDto.tryFrom params).isOk && (mapTranspose transaction_options).isOk
  | .PrepareSendAmount _ options => (mapTranspose options).isOk
  | .SendAmount _ options => (mapTranspose options).isOk
  | .SendNativeTokens _ options => (mapTranspose options).isOk
  | .SendNft _ options => (mapTranspose options).isOk
  | .IncreaseVotingPower amount => (u64FromStr amount).isSome
  | .DecreaseVotingPower amount => (u64FromStr amount).isSome
  | _ => true

/-- How many calls the handler makes on the account handle itself when the
dispatch succeeds: one, except for `MinimumRequiredStorageDeposit`, which
only consults the client and the SDK rent-cost function. -/
def accountCallTarget : AccountMethod → Nat
  | .MinimumRequiredStorageDeposit _ => 0
  | _ => 1

/-- A concrete external handle on which every operation succeeds with a fixed
value; used to evaluate the handler on concrete commands. -/
def acctOk : Account where
  burn := fun _ _ => .ok ⟨1⟩
  consolidate_outputs := fun _ _ => .ok ⟨2⟩
  create_alias_output := fun _ _ => .ok ⟨3⟩
  generate_addresses := fun _ _ => .ok [⟨4⟩]
  get_unlockable_outputs_with_additional_unlock_conditions := fun _ => .ok [⟨5⟩]
  get_output := fun _ => some ⟨6⟩
  get_foundry_output := fun _ => .ok ⟨7, 0⟩
  get_transaction := fun _ => some ⟨8⟩
  get_incoming_transaction := fun _ => some ⟨9⟩
  addresses := .ok [⟨10⟩]
  addresses_with_unspent_outputs := .ok [⟨11⟩]
  outputs := fun _ => .ok [⟨12⟩]
  unspent_outputs := fun _ => .ok [⟨13⟩]
  incoming_transactions := [⟨14⟩]
  transactions := [⟨15⟩]
  pending_transactions := [⟨16⟩]
  decrease_native_token_supply := fun _ _ _ => .ok ⟨17⟩
  increase_native_token_supply := fun _ _ _ => .ok ⟨18⟩
  mint_native_token := fun _ _ => .ok ⟨19⟩
  mint_nfts := fun _ _ => .ok ⟨20⟩
  balance := .ok ⟨21⟩
  prepare_output := fun _ _ => .ok ⟨22, 0⟩
  prepare_send_amount := fun _ _ => .ok ⟨23⟩
  prepare_transaction := fun _ _ => .ok ⟨24⟩
  retry_transaction_until_included := fun _ _ _ => .ok ⟨25⟩
  sync := fun _ => .ok ⟨26⟩
  send_amount := fun _ _ => .ok ⟨27⟩
  send_native_tokens := fun _ _ => .ok ⟨28⟩
  send_nft := fun _ _ => .ok ⟨29⟩
  set_alias := fun _ => .ok ()
  set_default_sync_options := fun _ => .ok ()
  send := fun _ _ => .ok ⟨30⟩
  sign_transaction_essence := fun _ => .ok ⟨31⟩
  submit_and_store_transaction := fun _ => .ok ⟨32⟩
  claim_outputs := fun _ => .ok ⟨33⟩
  vote := fun _ _ => .ok ⟨34⟩
  stop_participating := fun _ => .ok ⟨35⟩
  get_voting_power := .ok 36
  get_participation_overview := fun _ => .ok ⟨37⟩
  increase_voting_power := fun _ => .ok ⟨38⟩
  decrease_voting_power := fun _ => .ok ⟨39⟩
  register_participation_events := fun _ => .ok [⟨40⟩]
  deregister_participation_event := fun _ => .ok ()
  get_participation_event := fun _ => .ok ⟨41⟩
  get_participation_event_ids := fun _ _ => .ok [⟨42⟩]
  get_participation_event_status := fun _ => .ok ⟨43⟩
  get_participation_events := .ok [⟨44⟩]
  client_get_token_supply := .ok 1000
  client_get_rent_structure := .ok ⟨45⟩
  client_get_protocol_parameters := .ok ⟨46⟩

/-- A concrete SDK environment with some rent-cost function. -/
def env0 : Sdk where
  rent_cost := fun o r => o.amount + r.val

end Iota

namespace Iota

/-- An output DTO conversion only ever fails with the amount-validation error
for its own amount field. -/
theorem tfd_output_error {d : OutputDto} {ts : Nat} {e : Err}
    (h : Output.try_from_dto d ts = Except.error e) : e = Err.outputAmount d.amount := by
  simp only [Output.try_from_dto] at h
  split at h <;> simp_all

/-- A prepared-transaction DTO conversion only ever fails with the DTO's own
conversion error. -/
theorem tfd_prepared_error {d : PreparedTransactionDataDto}
    {p : ProtocolParameters} {e : Err}
    (h : PreparedTransactionData.try_from_dto d p = Except.error e) : e = d.err := by
  simp only [PreparedTransactionData.try_from_dto] at h
  split at h <;> (try split at h) <;> simp_all

/-- A signed-transaction DTO conversion only ever fails with the DTO's own
conversion error. -/
theorem tfd_signed_error {d : SignedTransactionDataDto}
    {p : ProtocolParameters} {e : Err}
    (h : SignedTransactionData.try_from_dto d p = Except.error e) : e = d.err := by
  simp only [SignedTransactionData.try_from_dto] at h
  split at h <;> (try split at h) <;> simp_all

/-- A failed bulk output conversion reports the amount-validation error of one
of the DTOs in the list. -/
theorem collectOutputs_error {ts : Nat} {outputs : List OutputDto} {e : Err}
    (h : collectOutputs ts outputs = Except.error e) :
    e ∈ outputs.map fun o => Err.outputAmount o.amount := by
  induction outputs with
  | nil => simp [collectOutputs] at h
  | cons o rest ih =>
    simp only [collectOutputs] at h
    split at h
    · rename_i e1 heq
      simp only [Except.error.injEq] at h
      subst h
      simp [tfd_output_error heq]
    · rename_i o1 heq
      split at h
      · rename_i e2 heq2
        simp only [Except.error.injEq] at h
        subst h
        simp [ih heq2]
      · simp at h

end Iota

namespace Iota

/-- Trace of the common arm shape: one engine call followed by response
wrapping records exactly that call, whether it succeeds or fails. -/
theorem emit_trace {α : Type} (c : EngineCall) (r : Except Err α) (f : α → Response) :
    (emit c r fun a => pureOut (f a)).2 = [c] := by
  cases r <;> rfl

/-- Trace of an infallible engine call followed by response wrapping. -/
theorem emitPure_trace {α : Type} (c : EngineCall) (v : α) (f : α → Response) :
    (emitPure c v fun a => pureOut (f a)).2 = [c] := rfl

/-- Every dispatch makes at most one call on the account handle itself. -/
theorem countP_le_one (env : Sdk) (acct : Account) (m : AccountMethod) :
    ((call_account_method_internal env acct m).2.countP EngineCall.isAccountCall) ≤ 1 := by
  cases m <;>
    (simp only [call_account_method_internal, convBind, emit, emitPure, pureOut]
     repeat' split
     all_goals simp [List.countP_cons, List.countP_nil, EngineCall.isAccountCall])

/-- On a successful dispatch the number of account-handle calls is exactly
`accountCallTarget`: one, except zero for `MinimumRequiredStorageDeposit`. -/
theorem successCount (env : Sdk) (acct : Account) (m : AccountMethod) (r : Response)
    (tr : List EngineCall) (h : call_account_method_internal env acct m = (.ok r, tr)) :
    tr.countP EngineCall.isAccountCall = accountCallTarget m := by
  cases m <;>
    (simp only [call_account_method_internal, convBind, emit, emitPure, pureOut] at h
     repeat' split at h
     all_goals simp at h
     all_goals obtain ⟨h1, h2⟩ := h
     all_goals subst h2
     all_goals simp [List.countP_cons, List.countP_nil, EngineCall.isAccountCall,
       accountCallTarget])

/-- The storage-deposit arm only consults the client for token supply and rent
structure and returns whatever the SDK rent-cost function computes on the
converted output: the binding layer performs no deposit accounting itself. -/
theorem mrsdDelegates (env : Sdk) (acct : Account) (d : OutputDto) (ts : Nat) (out : Output)
    (rs : RentStructure)
    (h1 : acct.client_get_token_supply = .ok ts)
    (h2 : Output.try_from_dto d ts = .ok out)
    (h3 : acct.client_get_rent_structure = .ok rs) :
    call_account_method_internal env acct (.MinimumRequiredStorageDeposit d) =
      (.ok (.MinimumRequiredStorageDeposit (toString (env.rent_cost out rs))),
       [.client_get_token_supply, .client_get_rent_structure]) := by
  simp [call_account_method_internal, emit, convBind, pureOut, h1, h2, h3]

end Iota


namespace Iota

set_option maxHeartbeats 2000000 in
/-- Every error a dispatch returns is either exactly an error some recorded
engine call produced (no reclassification of engine errors), or one of the
literal payload-validation errors of the command. -/
theorem errorProvenance (env : Sdk) (acct : Account) (m : AccountMethod) (e : Err)
    (tr : List EngineCall) (h : call_account_method_internal env acct m = (.error e, tr)) :
    (∃ c ∈ tr, callErr acct c = some e) ∨ e ∈ payloadConvErrs m := by
  cases m
  case MinimumRequiredStorageDeposit d =>
    simp only [call_account_method_internal, convBind, emit, pureOut] at h
    repeat' split at h
    all_goals simp at h
    all_goals obtain ⟨h1, h2⟩ := h
    all_goals subst h2
    all_goals subst h1
    · rename_i e1 heq
      exact Or.inl ⟨.client_get_token_supply, by simp, by simp [callErr, exceptErr, heq]⟩
    case _ ts hts e1 heq =>
      exact Or.inr (by simp [payloadConvErrs, tfd_output_error heq])
    case _ ts hts out hcv e1 heq =>
      exact Or.inl ⟨.client_get_rent_structure, by simp, by simp [callErr, exceptErr, heq]⟩
  case PrepareTransaction outputs options =>
    simp only [call_account_method_internal, convBind, emit, pureOut] at h
    repeat' split at h
    all_goals simp at h
    all_goals obtain ⟨h1, h2⟩ := h
    all_goals subst h2
    all_goals subst h1
    · rename_i e1 heq
      exact Or.inl ⟨.client_get_token_supply, by simp, by simp [callErr, exceptErr, heq]⟩
    case _ ts hts e1 heq =>
      exact Or.inr (by simp only [payloadConvErrs, List.mem_append]; exact Or.inl (collectOutputs_error heq))
    case _ ts hts outs hcv e1 heq =>
      exact Or.inr (by simp [payloadConvErrs, convErr, heq])
    case _ r1 ts hts r2 outs houts r3 oo ho r4 e1 heq =>
      exact Or.inl ⟨.prepare_transaction outs oo, by simp, by simp [callErr, exceptErr, heq]⟩
  case SendOutputs outputs options =>
    simp only [call_account_method_internal, convBind, emit, pureOut] at h
    repeat' split at h
    all_goals simp at h
    all_goals obtain ⟨h1, h2⟩ := h
    all_goals subst h2
    all_goals subst h1
    · rename_i e1 heq
      exact Or.inl ⟨.client_get_token_supply, by simp, by simp [callErr, exceptErr, heq]⟩
    case _ ts hts e1 heq =>
      exact Or.inr (by simp only [payloadConvErrs, List.mem_append]; exact Or.inl (collectOutputs_error heq))
    case _ ts hts outs hcv e1 heq =>
      exact Or.inr (by simp [payloadConvErrs, convErr, heq])
    case _ r1 ts hts r2 outs houts r3 oo ho r4 e1 heq =>
      exact Or.inl ⟨.send outs oo, by simp, by simp [callErr, exceptErr, heq]⟩
  case SignTransactionEssence d =>
    simp only [call_account_method_internal, convBind, emit, pureOut] at h
    repeat' split at h
    all_goals simp at h
    all_goals obtain ⟨h1, h2⟩ := h
    all_goals subst h2
    all_goals subst h1
    · rename_i e1 heq
      exact Or.inl ⟨.client_get_protocol_parameters, by simp, by simp [callErr, exceptErr, heq]⟩
    case _ p hp e1 heq =>
      exact Or.inr (by simp [payloadConvErrs, tfd_prepared_error heq])
    case _ r1 p hp r2 pd hpd r3 e1 heq =>
      exact Or.inl ⟨.sign_transaction_essence pd, by simp, by simp [callErr, exceptErr, heq]⟩
  case SubmitAndStoreTransaction d =>
    simp only [call_account_method_internal, convBind, emit, pureOut] at h
    repeat' split at h
    all_goals simp at h
    all_goals obtain ⟨h1, h2⟩ := h
    all_goals subst h2
    all_goals subst h1
    · rename_i e1 heq
      exact Or.inl ⟨.client_get_protocol_parameters, by simp, by simp [callErr, exceptErr, heq]⟩
    case _ p hp e1 heq =>
      exact Or.inr (by simp [payloadConvErrs, tfd_signed_error heq])
    case _ r1 p hp r2 sd hsd r3 e1 heq =>
      exact Or.inl ⟨.submit_and_store_transaction sd, by simp, by simp [callErr, exceptErr, heq]⟩
  case IncreaseVotingPower amount =>
    rcases hu : u64FromStr amount with _ | n <;>
      simp only [call_account_method_internal, convBind, emit, pureOut, hu] at h
    · simp at h
      obtain ⟨h1, h2⟩ := h
      subst h2; subst h1
      exact Or.inr (by simp [payloadConvErrs, hu])
    · repeat' split at h
      all_goals simp at h
      all_goals obtain ⟨h1, h2⟩ := h
      all_goals subst h2
      all_goals subst h1
      rename_i e1 heq
      exact Or.inl ⟨.increase_voting_power n, by simp, by simp [callErr, exceptErr, heq]⟩
  case DecreaseVotingPower amount =>
    rcases hu : u64FromStr amount with _ | n <;>
      simp only [call_account_method_internal, convBind, emit, pureOut, hu] at h
    · simp at h
      obtain ⟨h1, h2⟩ := h
      subst h2; subst h1
      exact Or.inr (by simp [payloadConvErrs, hu])
    · repeat' split at h
      all_goals simp at h
      all_goals obtain ⟨h1, h2⟩ := h
      all_goals subst h2
      all_goals subst h1
      rename_i e1 heq
      exact Or.inl ⟨.decrease_voting_power n, by simp, by simp [callErr, exceptErr, heq]⟩
  case DecreaseNativeTokenSupply tid amt options =>
    simp only [call_account_method_internal, convBind, emit, pureOut, U256.tryFromRef] at h
    repeat' split at h
    all_goals simp at h
    all_goals obtain ⟨h1, h2⟩ := h
    all_goals subst h2
    all_goals subst h1
    case _ e1 heq =>
      exact Or.inr (by simp [payloadConvErrs, convErr, heq])
    case _ r2 oo ho r3 e1 heq =>
      exact Or.inl ⟨.decrease_native_token_supply tid amt oo, by simp, by simp [callErr, exceptErr, heq]⟩
  case IncreaseNativeTokenSupply tid amt options =>
    simp only [call_account_method_internal, convBind, emit, pureOut, U256.tryFromRef] at h
    repeat' split at h
    all_goals simp at h
    all_goals obtain ⟨h1, h2⟩ := h
    all_goals subst h2
    all_goals subst h1
    case _ e1 heq =>
      exact Or.inr (by simp [payloadConvErrs, convErr, heq])
    case _ r2 oo ho r3 e1 heq =>
      exact Or.inl ⟨.increase_native_token_supply tid amt oo, by simp, by simp [callErr, exceptErr, heq]⟩
  all_goals
    (simp only [call_account_method_internal, convBind, emit, emitPure, pureOut] at h <;>
     (repeat' split at h) <;> simp at h <;>
     (obtain ⟨h1, h2⟩ := h) <;> subst h2 <;> subst h1 <;>
     simp_all [callErr, exceptErr, payloadConvErrs, convErr])


/-- On a handle whose every fallible operation fails with the engine error `e`,
any command that dispatches to a fallible operation (with its own payload
conversions succeeding) returns exactly `e`. -/
theorem failAccount_propagates (e : Err) (env : Sdk) (m : AccountMethod)
    (hdf : dispatchesFallible m = true) (hpl : payloadOk m = true) :
    (call_account_method_internal env (failAccount e) m).1 = .error e := by
  cases m
  case IncreaseVotingPower amount =>
    simp only [payloadOk] at hpl
    obtain ⟨n, hn⟩ := Option.isSome_iff_exists.mp hpl
    simp [call_account_method_internal, failAccount, convBind, emit, pureOut, hn]
  case DecreaseVotingPower amount =>
    simp only [payloadOk] at hpl
    obtain ⟨n, hn⟩ := Option.isSome_iff_exists.mp hpl
    simp [call_account_method_internal, failAccount, convBind, emit, pureOut, hn]
  all_goals
    (simp only [call_account_method_internal, failAccount, convBind, emit, emitPure, pureOut,
       U256.tryFromRef]
     repeat' split
     all_goals simp_all [dispatchesFallible, payloadOk, Except.isOk, Except.toBool, exceptErr])

end Iota

namespace Iota

/-- C1 (counterexample): the handler for `MinimumRequiredStorageDeposit`
dispatches to zero calls on the account handle (it only consults the client),
so "exactly one call on the external account handle" fails on this concrete
successful dispatch. -/
theorem claim_C1_counterexample :
    (call_account_method_internal env0 acctOk (.MinimumRequiredStorageDeposit ⟨0, 0⟩)).1 =
      .ok (.MinimumRequiredStorageDeposit "45") ∧
    ((call_account_method_internal env0 acctOk
        (.MinimumRequiredStorageDeposit ⟨0, 0⟩)).2.countP EngineCall.isAccountCall) = 0 ∧
    ¬ ((call_account_method_internal env0 acctOk
        (.MinimumRequiredStorageDeposit ⟨0, 0⟩)).2.countP EngineCall.isAccountCall) = 1 :=
  ⟨rfl, rfl, by decide⟩

/-- C1 (amended): every dispatch makes at most one call on the account handle
(exactly one on success, except `MinimumRequiredStorageDeposit`, which makes
none), and the storage-deposit arm forwards the converted output to the
external SDK rent-cost function, performing no deposit accounting of its
own. -/
theorem claim_C1_amended :
    (∀ (env : Sdk) (acct : Account) (m : AccountMethod),
        ((call_account_method_internal env acct m).2.countP EngineCall.isAccountCall) ≤ 1) ∧
    (∀ (env : Sdk) (acct : Account) (m : AccountMethod) (r : Response) (tr : List EngineCall),
        call_account_method_internal env acct m = (.ok r, tr) →
        tr.countP EngineCall.isAccountCall = accountCallTarget m) ∧
    (∀ (env : Sdk) (acct : Account) (d : OutputDto) (ts : Nat) (out : Output)
        (rs : RentStructure),
        acct.client_get_token_supply = .ok ts →
        Output.try_from_dto d ts = .ok out →
        acct.client_get_rent_structure = .ok rs →
        call_account_method_internal env acct (.MinimumRequiredStorageDeposit d) =
          (.ok (.MinimumRequiredStorageDeposit (toString (env.rent_cost out rs))),
           [.client_get_token_supply, .client_get_rent_structure])) :=
  ⟨countP_le_one, successCount, mrsdDelegates⟩

/-- C1 (witness): concrete instances of the amended statement. -/
theorem claim_C1_witness :
    ((call_account_method_internal env0 acctOk .GetBalance).2.countP
        EngineCall.isAccountCall ≤ 1) ∧
    [EngineCall.balance].countP EngineCall.isAccountCall = accountCallTarget .GetBalance ∧
    call_account_method_internal env0 acctOk (.MinimumRequiredStorageDeposit ⟨0, 0⟩) =
      (.ok (.MinimumRequiredStorageDeposit (toString (env0.rent_cost ⟨0, 0⟩ ⟨45⟩))),
       [.client_get_token_supply, .client_get_rent_structure]) :=
  ⟨claim_C1_amended.1 env0 acctOk .GetBalance,
   claim_C1_amended.2.1 env0 acctOk .GetBalance (.Balance ⟨⟨21⟩⟩) [.balance] rfl,
   claim_C1_amended.2.2 env0 acctOk ⟨0, 0⟩ 1000 ⟨0, 0⟩ ⟨45⟩ rfl rfl rfl⟩

/-- C2: whenever a dispatch succeeds, the produced response carries exactly the
variant the command vocabulary declares as its expected response. -/
theorem claim_C2 (env : Sdk) (acct : Account) (m : AccountMethod) (r : Response)
    (tr : List EngineCall) (h : call_account_method_internal env acct m = (.ok r, tr)) :
    r.tag = expectedResponse m := by
  cases m <;>
    (simp only [call_account_method_internal, convBind, emit, emitPure, pureOut] at h
     repeat' split at h
     all_goals simp at h
     all_goals obtain ⟨h1, h2⟩ := h
     all_goals subst h1
     all_goals rfl)

/-- C2 (witness): a successful `GetBalance` dispatch yields a `Balance`
response, as declared. -/
theorem claim_C2_witness :
    Response.tag (.Balance (AccountBalanceDto.from ⟨21⟩)) = expectedResponse .GetBalance :=
  claim_C2 env0 acctOk .GetBalance (.Balance (AccountBalanceDto.from ⟨21⟩)) [.balance] rfl

/-- C3: engine errors pass through unchanged.  Any returned error is exactly
an error some recorded engine call produced or a literal payload-validation
error of the command, and on a handle whose operations all fail with `e`
every command with a fallible dispatch returns exactly `e`. -/
theorem claim_C3 :
    (∀ (env : Sdk) (acct : Account) (m : AccountMethod) (e : Err) (tr : List EngineCall),
        call_account_method_internal env acct m = (.error e, tr) →
        (∃ c ∈ tr, callErr acct c = some e) ∨ e ∈ payloadConvErrs m) ∧
    (∀ (e : Err) (env : Sdk) (m : AccountMethod),
        dispatchesFallible m = true → payloadOk m = true →
        (call_account_method_internal env (failAccount e) m).1 = .error e) :=
  ⟨errorProvenance, failAccount_propagates⟩

/-- C3 (witness): a concrete engine failure of `GetBalance` propagates
unchanged and is attributed to the recorded `balance` call. -/
theorem claim_C3_witness :
    ((∃ c ∈ [EngineCall.balance], callErr (failAccount (.engine 7)) c = some (.engine 7)) ∨
       (Err.engine 7) ∈ payloadConvErrs .GetBalance) ∧
    (call_account_method_internal env0 (failAccount (.engine 7)) .GetBalance).1 =
      .error (.engine 7) :=
  ⟨claim_C3.1 env0 (failAccount (.engine 7)) .GetBalance (.engine 7) [.balance] rfl,
   claim_C3.2 (.engine 7) env0 .GetBalance rfl rfl⟩

/-- C4: a voting-power command whose amount string does not parse as a `u64`
returns `InvalidAmount` with that string and makes no engine call; the
native-token-supply commands would return `InvalidField` on a failed `U256`
conversion, but that conversion (from a value that is already a `U256`) is
infallible, so the condition never arises. -/
theorem claim_C4 (s : String) (h : u64FromStr s = none) (env : Sdk) (acct : Account)
    (tid : TokenId) (a : U256) (o : Option TransactionOptionsDto) :
    call_account_method_internal env acct (.IncreaseVotingPower s) =
      (.error (.invalidAmount s), []) ∧
    call_account_method_internal env acct (.DecreaseVotingPower s) =
      (.error (.invalidAmount s), []) ∧
    U256.tryFromRef a = .ok a ∧
    (∀ e : Empty, U256.tryFromRef a = .error e →
      call_account_method_internal env acct (.DecreaseNativeTokenSupply tid a o) =
        (.error (.invalidField "melt_amount"), []) ∧
      call_account_method_internal env acct (.IncreaseNativeTokenSupply tid a o) =
        (.error (.invalidField "mint_amount"), [])) := by
  refine ⟨?_, ?_, rfl, fun e => e.elim⟩
  · simp [call_account_method_internal, convBind, h]
  · simp [call_account_method_internal, convBind, h]

/-- C4 (witness): the unparseable amount string "abc" is rejected with
`InvalidAmount("abc")` and no engine call is made. -/
theorem claim_C4_witness :
    call_account_method_internal env0 acctOk (.IncreaseVotingPower "abc") =
      (.error (.invalidAmount "abc"), []) :=
  (claim_C4 "abc" rfl env0 acctOk ⟨0⟩ ⟨0⟩ none).1

/-- C5: commands whose payload fields need no DTO conversion forward those
field values to their engine call unchanged: the recorded call carries exactly
the payload fields, on every run. -/
theorem claim_C5 (env : Sdk) (acct : Account) :
    (∀ ids, (call_account_method_internal env acct (.ClaimOutputs ids)).2 =
      [.claim_outputs ids]) ∧
    (∀ f t, (call_account_method_internal env acct (.ConsolidateOutputs f t)).2 =
      [.consolidate_outputs f t]) ∧
    (∀ n o, (call_account_method_internal env acct (.GenerateAddresses n o)).2 =
      [.generate_addresses n o]) ∧
    (∀ tid iv ma,
      (call_account_method_internal env acct (.RetryTransactionUntilIncluded tid iv ma)).2 =
        [.retry_transaction_until_included tid iv ma]) ∧
    (∀ o, (call_account_method_internal env acct (.Sync o)).2 = [.sync o]) ∧
    (∀ oid, (call_account_method_internal env acct (.GetOutput oid)).2 = [.get_output oid]) ∧
    (∀ fo, (call_account_method_internal env acct (.Outputs fo)).2 = [.outputs fo]) ∧
    (∀ fo, (call_account_method_internal env acct (.UnspentOutputs fo)).2 =
      [.unspent_outputs fo]) ∧
    (∀ c, (call_account_method_internal env acct
        (.GetOutputsWithAdditionalUnlockConditions c)).2 =
      [.get_unlockable_outputs_with_additional_unlock_conditions c]) ∧
    (∀ a, (call_account_method_internal env acct (.SetAlias a)).2 = [.set_alias a]) ∧
    (∀ o, (call_account_method_internal env acct (.SetDefaultSyncOptions o)).2 =
      [.set_default_sync_options o]) ∧
    (∀ ps o oo, mapTranspose o = Except.ok oo →
      (call_account_method_internal env acct (.SendAmount ps o)).2 = [.send_amount ps oo]) := by
  refine ⟨fun ids => ?_, fun f t => ?_, fun n o => ?_, fun tid iv ma => ?_, fun o => ?_,
    fun oid => ?_, fun fo => ?_, fun fo => ?_, fun c => ?_, fun a => ?_, fun o => ?_,
    fun ps o oo ho => ?_⟩ <;>
    simp [call_account_method_internal, emit_trace, emitPure_trace, convBind, *]

/-- C5 (witness): concrete forwarded payloads. -/
theorem claim_C5_witness :
    (call_account_method_internal env0 acctOk (.ClaimOutputs [⟨9⟩])).2 =
      [.claim_outputs [⟨9⟩]] ∧
    (call_account_method_internal env0 acctOk (.SendAmount [⟨3⟩] none)).2 =
      [.send_amount [⟨3⟩] none] :=
  ⟨(claim_C5 env0 acctOk).1 [⟨9⟩],
   (claim_C5 env0 acctOk).2.2.2.2.2.2.2.2.2.2.2 [⟨3⟩] none none rfl⟩

/-- C7: the stored-object lookups never fail: `GetOutput`, `GetTransaction`
and `GetIncomingTransaction` always return `Ok`, with a `none` payload when
the requested entry is not stored. -/
theorem claim_C7 (env : Sdk) (acct : Account) (oid : OutputId) (tid tid2 : TransactionId) :
    (call_account_method_internal env acct (.GetOutput oid)).1 =
      .ok (.OutputData ((acct.get_output oid).map OutputDataDto.from)) ∧
    (call_account_method_internal env acct (.GetTransaction tid)).1 =
      .ok (.Transaction ((acct.get_transaction tid).map TransactionDto.from)) ∧
    (acct.get_output oid = none →
      (call_account_method_internal env acct (.GetOutput oid)).1 = .ok (.OutputData none)) ∧
    (acct.get_transaction tid = none →
      (call_account_method_internal env acct (.GetTransaction tid)).1 =
        .ok (.Transaction none)) ∧
    (acct.get_incoming_transaction tid2 = none →
      (call_account_method_internal env acct (.GetIncomingTransaction tid2)).1 =
        .ok (.Transaction none)) ∧
    (∀ t, acct.get_incoming_transaction tid2 = some t →
      (call_account_method_internal env acct (.GetIncomingTransaction tid2)).1 =
        .ok (.Transaction (some (TransactionDto.from t)))) := by
  refine ⟨rfl, rfl, fun h => ?_, fun h => ?_, fun h => ?_, fun t h => ?_⟩ <;>
    simp [call_account_method_internal, emitPure, pureOut, h]

/-- C7 (witness): on a handle storing nothing, all three lookups answer `Ok`
with `none`. -/
theorem claim_C7_witness :
    (call_account_method_internal env0 (failAccount (.engine 0)) (.GetOutput ⟨0⟩)).1 =
      .ok (.OutputData none) ∧
    (call_account_method_internal env0 (failAccount (.engine 0)) (.GetTransaction ⟨0⟩)).1 =
      .ok (.Transaction none) ∧
    (call_account_method_internal env0 (failAccount (.engine 0))
        (.GetIncomingTransaction ⟨0⟩)).1 = .ok (.Transaction none) :=
  ⟨(claim_C7 env0 (failAccount (.engine 0)) ⟨0⟩ ⟨0⟩ ⟨0⟩).2.2.1 rfl,
   (claim_C7 env0 (failAccount (.engine 0)) ⟨0⟩ ⟨0⟩ ⟨0⟩).2.2.2.1 rfl,
   (claim_C7 env0 (failAccount (.engine 0)) ⟨0⟩ ⟨0⟩ ⟨0⟩).2.2.2.2.1 rfl⟩

end Iota

namespace Iota

/-- Opaque external account identifier (index or alias). -/
structure AccountIdentifier where
  val : Nat
deriving DecidableEq, Repr

/-- Opaque external client options. -/
structure ClientOptions where
  val : Nat
deriving DecidableEq, Repr

/-- Opaque external wallet event (test-event payload). -/
structure WalletEvent where
  val : Nat
deriving DecidableEq, Repr

/-- Opaque external wallet event type selector. -/
structure WalletEventType where
  val : Nat
deriving DecidableEq, Repr

/-- Opaque external node authentication options. -/
structure NodeAuth where
  val : Nat
deriving DecidableEq, Repr

/-- A filesystem path (`PathBuf`), carried as text. -/
structure PathBuf where
  path : String
deriving DecidableEq, Repr

/-- A URL, carried as text. -/
structure Url where
  url : String
deriving DecidableEq, Repr

/-- The `WalletMethod` command enum of `src/bindings/core/src/method/wallet.rs`
(all `cfg` features enabled).  Constructor fields are the variant payloads; the
`password` and `mnemonic` fields are the ones whose Debug formatting the
`derivative` attribute replaces with `OmittedDebug::omitted_fmt`. -/
inductive WalletMethod where
  | CreateAccount (alias_value : Option String) (bech32_hrp : Option String)
  | GetAccount (account_id : AccountIdentifier)
  | GetAccountIndexes
  | GetAccounts
  | CallAccountMethod (account_id : AccountIdentifier) (method : AccountMethod)
  | Backup (destination : PathBuf) (password : String)
  | ChangeStrongholdPassword (current_password : String) (new_password : String)
  | ClearStrongholdPassword
  | IsStrongholdPasswordAvailable
  | RecoverAccounts (account_start_index : Nat) (account_gap_limit : Nat)
      (address_gap_limit : Nat) (sync_options : Option SyncOptions)
  | RestoreBackup (source : PathBuf) (password : String)
      (ignore_if_coin_type_mismatch : Option Bool)
  | RemoveLatestAccount
  | SetClientOptions (client_options : ClientOptions)
  | GenerateAddress (account_index : Nat) (internal : Bool) (address_index : Nat)
      (options : Option GenerateAddressOptions) (bech32_hrp : Option String)
  | GetLedgerNanoStatus
  | SetStrongholdPassword (password : String)
  | SetStrongholdPasswordClearInterval (interval_in_milliseconds : Option Nat)
  | StoreMnemonic (mnemonic : String)
  | StartBackgroundSync (options : Option SyncOptions) (interval_in_milliseconds : Option Nat)
  | StopBackgroundSync
  | EmitTestEvent (event : WalletEvent)
  | ClearListeners (event_types : List WalletEventType)
  | UpdateNodeAuth (url : Url) (auth : Option NodeAuth)
deriving DecidableEq, Repr

/-- Modelled from the spec: the crate's `OmittedDebug::omitted_fmt` helper
(declared outside this fragment, in the crate root) formats a secret field for
Debug output.  It writes a fixed placeholder and ignores the value, which is
what makes the `derivative` redaction attributes in
`src/bindings/core/src/method/wallet.rs` effective. -/
def omittedFmt (_secret : String) : String := "<omitted>"

/-- Rust Debug rendering of a string value (quoted). -/
def dbgString (s : String) : String := "\x22" ++ s ++ "\x22"

/-- Rust Debug rendering of an `Option`. -/
def dbgOpt {α : Type} (f : α → String) : Option α → String
  | none => "None"
  | some x => "Some(" ++ f x ++ ")"

/-- Rust Debug rendering of a `Vec`. -/
def dbgList {α : Type} (f : α → String) (l : List α) : String :=
  "[" ++ String.intercalate ", " (l.map f) ++ "]"

/-- The `Debug` formatting of a `WalletMethod` derived by the `derivative`
crate: ordinary struct-variant formatting, except that the fields annotated
with `format_with = "OmittedDebug::omitted_fmt"` (the Stronghold passwords and
the mnemonic) are rendered by `omittedFmt`. -/
def WalletMethod.debugFmt : WalletMethod → String
  | .CreateAccount a b =>
      "CreateAccount \x7b alias: " ++ dbgOpt dbgString a ++ ", bech32_hrp: " ++
        dbgOpt dbgString b ++ " \x7d"
  | .GetAccount i => "GetAccount \x7b account_id: " ++ toString i.val ++ " \x7d"
  | .GetAccountIndexes => "GetAccountIndexes"
  | .GetAccounts => "GetAccounts"
  | .CallAccountMethod i m =>
      "CallAccountMethod \x7b account_id: " ++ toString i.val ++ ", method: " ++
        reprStr m ++ " \x7d"
  | .Backup d p =>
      "Backup \x7b destination: " ++ dbgString d.path ++ ", password: " ++
        omittedFmt p ++ " \x7d"
  | .ChangeStrongholdPassword c n =>
      "ChangeStrongholdPassword \x7b current_password: " ++ omittedFmt c ++
        ", new_password: " ++ omittedFmt n ++ " \x7d"
  | .ClearStrongholdPassword => "ClearStrongholdPassword"
  | .IsStrongholdPasswordAvailable => "IsStrongholdPasswordAvailable"
  | .RecoverAccounts s g a o =>
      "RecoverAccounts \x7b account_start_index: " ++ toString s ++
        ", account_gap_limit: " ++ toString g ++ ", address_gap_limit: " ++ toString a ++
        ", sync_options: " ++ dbgOpt (fun x => toString x.val) o ++ " \x7d"
  | .RestoreBackup s p i =>
      "RestoreBackup \x7b source: " ++ dbgString s.path ++ ", password: " ++
        omittedFmt p ++ ", ignore_if_coin_type_mismatch: " ++ dbgOpt toString i ++ " \x7d"
  | .RemoveLatestAccount => "RemoveLatestAccount"
  | .SetClientOptions c =>
      "SetClientOptions \x7b client_options: " ++ toString c.val ++ " \x7d"
  | .GenerateAddress ai it ad o b =>
      "GenerateAddress \x7b account_index: " ++ toString ai ++ ", internal: " ++
        toString it ++ ", address_index: " ++ toString ad ++ ", options: " ++
        dbgOpt (fun x => toString x.val) o ++ ", bech32_hrp: " ++
        dbgOpt dbgString b ++ " \x7d"
  | .GetLedgerNanoStatus => "GetLedgerNanoStatus"
  | .SetStrongholdPassword p =>
      "SetStrongholdPassword \x7b password: " ++ omittedFmt p ++ " \x7d"
  | .SetStrongholdPasswordClearInterval i =>
      "SetStrongholdPasswordClearInterval \x7b interval_in_milliseconds: " ++
        dbgOpt toString i ++ " \x7d"
  | .StoreMnemonic m =>
      "StoreMnemonic \x7b mnemonic: " ++ omittedFmt m ++ " \x7d"
  | .StartBackgroundSync o i =>
      "StartBackgroundSync \x7b options: " ++ dbgOpt (fun x => toString x.val) o ++
        ", interval_in_milliseconds: " ++ dbgOpt toString i ++ " \x7d"
  | .StopBackgroundSync => "StopBackgroundSync"
  | .EmitTestEvent e => "EmitTestEvent \x7b event: " ++ toString e.val ++ " \x7d"
  | .ClearListeners ts =>
      "ClearListeners \x7b event_types: " ++ dbgList (fun x => toString x.val) ts ++ " \x7d"
  | .UpdateNodeAuth u a =>
      "UpdateNodeAuth \x7b url: " ++ dbgString u.url ++ ", auth: " ++
        dbgOpt (fun x => toString x.val) a ++ " \x7d"

end Iota

namespace Iota

/-- C8: Debug output is independent of the secret fields.  Two `WalletMethod`
values of the same variant that differ only in a password (of `Backup`,
`ChangeStrongholdPassword`, `RestoreBackup` or `SetStrongholdPassword`) or in
the mnemonic (of `StoreMnemonic`) have identical Debug formatting: the secret
is redacted and cannot influence (or appear through) the output. -/
theorem claim_C8 :
    (∀ (dest : PathBuf) (p p' : String),
      WalletMethod.debugFmt (.Backup dest p) = WalletMethod.debugFmt (.Backup dest p')) ∧
    (∀ (c c' n n' : String),
      WalletMethod.debugFmt (.ChangeStrongholdPassword c n) =
        WalletMethod.debugFmt (.ChangeStrongholdPassword c' n')) ∧
    (∀ (src : PathBuf) (p p' : String) (ig : Option Bool),
      WalletMethod.debugFmt (.RestoreBackup src p ig) =
        WalletMethod.debugFmt (.RestoreBackup src p' ig)) ∧
    (∀ (p p' : String),
      WalletMethod.debugFmt (.SetStrongholdPassword p) =
        WalletMethod.debugFmt (.SetStrongholdPassword p')) ∧
    (∀ (m m' : String),
      WalletMethod.debugFmt (.StoreMnemonic m) =
        WalletMethod.debugFmt (.StoreMnemonic m')) :=
  ⟨fun _ _ _ => rfl, fun _ _ _ _ => rfl, fun _ _ _ _ => rfl, fun _ _ => rfl, fun _ _ => rfl⟩

end Iota

namespace Iota

/-- JSON values, the target of the serde-derived serialization of the command
enums (modelled at the value level; text rendering is serde_json's concern). -/
inductive Json where
  | null
  | bool (b : Bool)
  | num (n : Nat)
  | str (s : String)
  | arr (xs : List Json)
  | obj (fields : List (String × Json))

/-- Serde rendering of an `Option`: `None` is `null`, `Some` is the value. -/
def encOpt {α : Type} (enc : α → Json) : Option α → Json
  | none => Json.null
  | some x => enc x

/-- Serde parsing of an `Option`: `null` is `None`, anything else the value. -/
def decOpt {α : Type} (dec : Json → Option α) (j : Json) : Option (Option α) :=
  match j with
  | .null => some none
  | _ => (dec j).map some

/-- Parse a JSON number. -/
def decNat : Json → Option Nat
  | .num n => some n
  | _ => none

/-- Parse a JSON string. -/
def decStr : Json → Option String
  | .str s => some s
  | _ => none

/-- Parse a JSON boolean. -/
def decBool : Json → Option Bool
  | .bool b => some b
  | _ => none

/-- Parse a single-`Nat`-field wrapper encoded as a JSON number.  Stands for
the (external) serde implementation of the opaque SDK types. -/
def decWrap {α : Type} (mk : Nat → α) : Json → Option α
  | .num n => some (mk n)
  | _ => none

/-- Fail-fast parsing of a JSON array already split into elements. -/
def decListAux {α : Type} (dec : Json → Option α) : List Json → Option (List α)
  | [] => some []
  | j :: rest =>
    match dec j with
    | none => none
    | some a =>
      match decListAux dec rest with
      | none => none
      | some tail => some (a :: tail)

theorem decListAux_map {α : Type} (dec : Json → Option α) (enc : α → Json)
    (h : ∀ a, dec (enc a) = some a) (l : List α) :
    decListAux dec (l.map enc) = some l := by
  induction l with
  | nil => rfl
  | cons a rest ih => simp [decListAux, h, ih]

/-- Serde rendering of the boundary error type (external; modelled as a tagged
object). -/
def encErr : Err → Json
  | .invalidField f => .obj [("invalidField", .str f)]
  | .invalidAmount a => .obj [("invalidAmount", .str a)]
  | .outputAmount n => .obj [("outputAmount", .num n)]
  | .protocolMismatch => .str "protocolMismatch"
  | .engine n => .obj [("engine", .num n)]

def decErr : Json → Option Err
  | .obj [("invalidField", .str f)] => some (.invalidField f)
  | .obj [("invalidAmount", .str a)] => some (.invalidAmount a)
  | .obj [("outputAmount", .num n)] => some (.outputAmount n)
  | .str "protocolMismatch" => some .protocolMismatch
  | .obj [("engine", .num n)] => some (.engine n)
  | _ => none

@[simp] theorem decErr_enc (e : Err) : decErr (encErr e) = some e := by
  cases e <;> rfl

/-- Serde rendering of a conversion DTO (external; modelled structurally). -/
def encConvDto {α : Type} (enc : α → Json) (d : ConvDto α) : Json :=
  .obj [("ok", encOpt enc d.ok), ("err", encErr d.err)]

def decConvDto {α : Type} (dec : Json → Option α) : Json → Option (ConvDto α)
  | .obj [("ok", o), ("err", e)] =>
    match decOpt dec o, decErr e with
    | some ok, some err => some ⟨ok, err⟩
    | _, _ => none
  | _ => none

/-- DTO over a single-`Nat`-field wrapper, rendered through its value. -/
def encWrapDto {α : Type} (f : α → Nat) : ConvDto α → Json :=
  encConvDto (fun a => .num (f a))

def decWrapDto {α : Type} (mk : Nat → α) : Json → Option (ConvDto α) :=
  decConvDto (decWrap mk)

theorem decWrapDto_enc {α : Type} (f : α → Nat) (mk : Nat → α)
    (h : ∀ a, mk (f a) = a) (d : ConvDto α) :
    decWrapDto mk (encWrapDto f d) = some d := by
  obtain ⟨ok, err⟩ := d
  cases ok <;> simp [encWrapDto, decWrapDto, encConvDto, decConvDto, encOpt, decOpt, decWrap, h]

@[simp] theorem decTxOptsDto_enc (d : TransactionOptionsDto) :
    decWrapDto TransactionOptions.mk (encWrapDto TransactionOptions.val d) = some d :=
  decWrapDto_enc _ _ (fun _ => rfl) d

@[simp] theorem decBurnDto_enc (d : BurnDto) :
    decWrapDto Burn.mk (encWrapDto Burn.val d) = some d :=
  decWrapDto_enc _ _ (fun _ => rfl) d

@[simp] theorem decCreateAliasParamsDto_enc (d : CreateAliasParamsDto) :
    decWrapDto CreateAliasParams.mk (encWrapDto CreateAliasParams.val d) = some d :=
  decWrapDto_enc _ _ (fun _ => rfl) d

@[simp] theorem decMintNativeTokenParamsDto_enc (d : MintNativeTokenParamsDto) :
    decWrapDto MintNativeTokenParams.mk (encWrapDto MintNativeTokenParams.val d) = some d :=
  decWrapDto_enc _ _ (fun _ => rfl) d

@[simp] theorem decMintNftParamsDto_enc (d : MintNftParamsDto) :
    decWrapDto MintNftParams.mk (encWrapDto MintNftParams.val d) = some d :=
  decWrapDto_enc _ _ (fun _ => rfl) d

@[simp] theorem decOutputParamsDto_enc (d : OutputParamsDto) :
    decWrapDto OutputParams.mk (encWrapDto OutputParams.val d) = some d :=
  decWrapDto_enc _ _ (fun _ => rfl) d

/-- Serde rendering of an output DTO (external; modelled structurally). -/
def encOutputDto (d : OutputDto) : Json :=
  .obj [("amount", .num d.amount), ("meta", .num d.meta)]

def decOutputDto : Json → Option OutputDto
  | .obj [("amount", .num a), ("meta", .num m)] => some ⟨a, m⟩
  | _ => none

@[simp] theorem decOutputDto_enc (d : OutputDto) : decOutputDto (encOutputDto d) = some d := rfl

/-- Serde rendering of prepared transaction data (external; modelled
structurally). -/
def encPtdDto (d : PreparedTransactionDataDto) : Json :=
  .obj [("val", .num d.val.val), ("needs", encOpt (fun p => .num p.val) d.needs),
        ("err", encErr d.err)]

def decPtdDto : Json → Option PreparedTransactionDataDto
  | .obj [("val", .num v), ("needs", n), ("err", e)] =>
    match decOpt (decWrap ProtocolParameters.mk) n, decErr e with
    | some needs, some err => some ⟨⟨v⟩, needs, err⟩
    | _, _ => none
  | _ => none

@[simp] theorem decPtdDto_enc (d : PreparedTransactionDataDto) :
    decPtdDto (encPtdDto d) = some d := by
  obtain ⟨⟨v⟩, needs, err⟩ := d
  cases needs <;> simp [encPtdDto, decPtdDto, encOpt, decOpt, decWrap]

/-- Serde rendering of signed transaction data (external; modelled
structurally). -/
def encStdDto (d : SignedTransactionDataDto) : Json :=
  .obj [("val", .num d.val.val), ("needs", encOpt (fun p => .num p.val) d.needs),
        ("err", encErr d.err)]

def decStdDto : Json → Option SignedTransactionDataDto
  | .obj [("val", .num v), ("needs", n), ("err", e)] =>
    match decOpt (decWrap ProtocolParameters.mk) n, decErr e with
    | some needs, some err => some ⟨⟨v⟩, needs, err⟩
    | _, _ => none
  | _ => none

@[simp] theorem decStdDto_enc (d : SignedTransactionDataDto) :
    decStdDto (encStdDto d) = some d := by
  obtain ⟨⟨v⟩, needs, err⟩ := d
  cases needs <;> simp [encStdDto, decStdDto, encOpt, decOpt, decWrap]

end Iota

namespace Iota

/-- Adjacently tagged serde envelope of `AccountMethod`:
`#[serde(tag = "name", content = "data", rename_all = "camelCase")]`. -/
def tagged (name : String) (data : Json) : Json :=
  .obj [("name", .str name), ("data", data)]

/-- A unit variant carries only its tag. -/
def taggedUnit (name : String) : Json := .obj [("name", .str name)]

/-- Serialization of `AccountMethod` with the declared representation: tag
field "name", content field "data", camelCase variant names, and camelCase
field names exactly for the variants annotated with
`#[serde(rename_all = "camelCase")]` in the source. -/
def AccountMethod.toJson : AccountMethod → Json
  | .Burn burn options =>
    tagged "burn" (.obj [("burn", encWrapDto Burn.val burn),
      ("options", encOpt (encWrapDto TransactionOptions.val) options)])
  | .ConsolidateOutputs force t =>
    tagged "consolidateOutputs" (.obj [("force", .bool force),
      ("outputConsolidationThreshold", encOpt Json.num t)])
  | .CreateAliasOutput params options =>
    tagged "createAliasOutput" (.obj
      [("params", encOpt (encWrapDto CreateAliasParams.val) params),
       ("options", encOpt (encWrapDto TransactionOptions.val) options)])
  | .GenerateAddresses amount options =>
    tagged "generateAddresses" (.obj [("amount", .num amount),
      ("options", encOpt (fun o => .num o.val) options)])
  | .GetOutput i => tagged "getOutput" (.obj [("outputId", .num i.val)])
  | .GetFoundryOutput t => tagged "getFoundryOutput" (.obj [("tokenId", .num t.val)])
  | .GetOutputsWithAdditionalUnlockConditions c =>
    tagged "getOutputsWithAdditionalUnlockConditions" (.obj [("outputsToClaim", .num c.val)])
  | .GetTransaction i => tagged "getTransaction" (.obj [("transactionId", .num i.val)])
  | .GetIncomingTransaction i =>
    tagged "getIncomingTransaction" (.obj [("transactionId", .num i.val)])
  | .Addresses => taggedUnit "addresses"
  | .AddressesWithUnspentOutputs => taggedUnit "addressesWithUnspentOutputs"
  | .Outputs f =>
    tagged "outputs" (.obj [("filterOptions", encOpt (fun x => .num x.val) f)])
  | .UnspentOutputs f =>
    tagged "unspentOutputs" (.obj [("filterOptions", encOpt (fun x => .num x.val) f)])
  | .IncomingTransactions => taggedUnit "incomingTransactions"
  | .Transactions => taggedUnit "transactions"
  | .PendingTransactions => taggedUnit "pendingTransactions"
  | .DecreaseNativeTokenSupply t a options =>
    tagged "decreaseNativeTokenSupply" (.obj [("tokenId", .num t.val),
      ("meltAmount", .num a.val),
      ("options", encOpt (encWrapDto TransactionOptions.val) options)])
  | .MinimumRequiredStorageDeposit d =>
    tagged "minimumRequiredStorageDeposit" (.obj [("output", encOutputDto d)])
  | .IncreaseNativeTokenSupply t a options =>
    tagged "increaseNativeTokenSupply" (.obj [("tokenId", .num t.val),
      ("mintAmount", .num a.val),
      ("options", encOpt (encWrapDto TransactionOptions.val) options)])
  | .MintNativeToken params options =>
    tagged "mintNativeToken" (.obj
      [("params", encWrapDto MintNativeTokenParams.val params),
       ("options", encOpt (encWrapDto TransactionOptions.val) options)])
  | .MintNfts params options =>
    tagged "mintNfts" (.obj
      [("params", .arr (params.map (encWrapDto MintNftParams.val))),
       ("options", encOpt (encWrapDto TransactionOptions.val) options)])
  | .GetBalance => taggedUnit "getBalance"
  | .PrepareOutput params transaction_options =>
    tagged "prepareOutput" (.obj
      [("params", encWrapDto OutputParams.val params),
       ("transactionOptions", encOpt (encWrapDto TransactionOptions.val) transaction_options)])
  | .PrepareTransaction outputs options =>
    tagged "prepareTransaction" (.obj
      [("outputs", .arr (outputs.map encOutputDto)),
       ("options", encOpt (encWrapDto TransactionOptions.val) options)])
  | .PrepareSendAmount params options =>
    tagged "prepareSendAmount" (.obj
      [("params", .arr (params.map (fun p => .num p.val))),
       ("options", encOpt (encWrapDto TransactionOptions.val) options)])
  | .RetryTransactionUntilIncluded i iv ma =>
    tagged "retryTransactionUntilIncluded" (.obj [("transactionId", .num i.val),
      ("interval", encOpt Json.num iv), ("maxAttempts", encOpt Json.num ma)])
  | .Sync options =>
    tagged "sync" (.obj [("options", encOpt (fun o => .num o.val) options)])
  | .SendAmount params options =>
    tagged "sendAmount" (.obj
      [("params", .arr (params.map (fun p => .num p.val))),
       ("options", encOpt (encWrapDto TransactionOptions.val) options)])
  | .SendNativeTokens params options =>
    tagged "sendNativeTokens" (.obj
      [("params", .arr (params.map (fun p => .num p.val))),
       ("options", encOpt (encWrapDto TransactionOptions.val) options)])
  | .SendNft params options =>
    tagged "sendNft" (.obj
      [("params", .arr (params.map (fun p => .num p.val))),
       ("options", encOpt (encWrapDto TransactionOptions.val) options)])
  | .SetAlias a => tagged "setAlias" (.obj [("alias", .str a)])
  | .SetDefaultSyncOptions o =>
    tagged "setDefaultSyncOptions" (.obj [("options", .num o.val)])
  | .SendOutputs outputs options =>
    tagged "sendOutputs" (.obj
      [("outputs", .arr (outputs.map encOutputDto)),
       ("options", encOpt (encWrapDto TransactionOptions.val) options)])
  | .SignTransactionEssence d =>
    tagged "signTransactionEssence" (.obj [("preparedTransactionData", encPtdDto d)])
  | .SubmitAndStoreTransaction d =>
    tagged "submitAndStoreTransaction" (.obj [("signedTransactionData", encStdDto d)])
  | .ClaimOutputs ids =>
    tagged "claimOutputs" (.obj [("outputIdsToClaim", .arr (ids.map (fun i => .num i.val)))])
  | .Vote e a =>
    tagged "vote" (.obj [("eventId", encOpt (fun i => .num i.val) e),
      ("answers", encOpt (fun l => .arr (l.map Json.num)) a)])
  | .StopParticipating e => tagged "stopParticipating" (.obj [("eventId", .num e.val)])
  | .GetVotingPower => taggedUnit "getVotingPower"
  | .GetParticipationOverview ids =>
    tagged "getParticipationOverview" (.obj
      [("eventIds", encOpt (fun l => .arr (l.map (fun i => .num i.val))) ids)])
  | .IncreaseVotingPower a => tagged "increaseVotingPower" (.obj [("amount", .str a)])
  | .DecreaseVotingPower a => tagged "decreaseVotingPower" (.obj [("amount", .str a)])
  | .RegisterParticipationEvents o =>
    tagged "registerParticipationEvents" (.obj [("options", .num o.val)])
  | .DeregisterParticipationEvent e =>
    tagged "deregisterParticipationEvent" (.obj [("eventId", .num e.val)])
  | .GetParticipationEvent e =>
    tagged "getParticipationEvent" (.obj [("eventId", .num e.val)])
  | .GetParticipationEventIds n t =>
    tagged "getParticipationEventIds" (.obj [("node", .num n.val),
      ("eventType", encOpt (fun x => .num x.val) t)])
  | .GetParticipationEventStatus e =>
    tagged "getParticipationEventStatus" (.obj [("eventId", .num e.val)])
  | .GetParticipationEvents => taggedUnit "getParticipationEvents"

end Iota


namespace Iota

/-- Decoder for the `Burn` payload. -/
def armBurn : Json → Option AccountMethod
  | .obj [("burn", b), ("options", o)] =>
    match decWrapDto Burn.mk b, decOpt (decWrapDto TransactionOptions.mk) o with
    | some bb, some oo => some (.Burn bb oo)
    | _, _ => none
  | _ => none

/-- Decoder for the `ConsolidateOutputs` payload. -/
def armConsolidateOutputs : Json → Option AccountMethod
  | .obj [("force", .bool f), ("outputConsolidationThreshold", t)] =>
    match decOpt decNat t with
    | some tt => some (.ConsolidateOutputs f tt)
    | _ => none
  | _ => none

/-- Decoder for the `CreateAliasOutput` payload. -/
def armCreateAliasOutput : Json → Option AccountMethod
  | .obj [("params", p), ("options", o)] =>
    match decOpt (decWrapDto CreateAliasParams.mk) p,
        decOpt (decWrapDto TransactionOptions.mk) o with
    | some pp, some oo => some (.CreateAliasOutput pp oo)
    | _, _ => none
  | _ => none

/-- Decoder for the `GenerateAddresses` payload. -/
def armGenerateAddresses : Json → Option AccountMethod
  | .obj [("amount", .num n), ("options", o)] =>
    match decOpt (decWrap GenerateAddressOptions.mk) o with
    | some oo => some (.GenerateAddresses n oo)
    | _ => none
  | _ => none

/-- Decoder for the `GetOutput` payload. -/
def armGetOutput : Json → Option AccountMethod
  | .obj [("outputId", .num i)] => some (.GetOutput ⟨i⟩)
  | _ => none

/-- Decoder for the `GetFoundryOutput` payload. -/
def armGetFoundryOutput : Json → Option AccountMethod
  | .obj [("tokenId", .num i)] => some (.GetFoundryOutput ⟨i⟩)
  | _ => none

/-- Decoder for the `GetOutputsWithAdditionalUnlockConditions` payload. -/
def armGetOutputsWithAdditionalUnlockConditions : Json → Option AccountMethod
  | .obj [("outputsToClaim", .num c)] => some (.GetOutputsWithAdditionalUnlockConditions ⟨c⟩)
  | _ => none

/-- Decoder for the `GetTransaction` payload. -/
def armGetTransaction : Json → Option AccountMethod
  | .obj [("transactionId", .num i)] => some (.GetTransaction ⟨i⟩)
  | _ => none

/-- Decoder for the `GetIncomingTransaction` payload. -/
def armGetIncomingTransaction : Json → Option AccountMethod
  | .obj [("transactionId", .num i)] => some (.GetIncomingTransaction ⟨i⟩)
  | _ => none

/-- Decoder for the `Outputs` payload. -/
def armOutputs : Json → Option AccountMethod
  | .obj [("filterOptions", f)] =>
    match decOpt (decWrap FilterOptions.mk) f with
    | some ff => some (.Outputs ff)
    | _ => none
  | _ => none

/-- Decoder for the `UnspentOutputs` payload. -/
def armUnspentOutputs : Json → Option AccountMethod
  | .obj [("filterOptions", f)] =>
    match decOpt (decWrap FilterOptions.mk) f with
    | some ff => some (.UnspentOutputs ff)
    | _ => none
  | _ => none

/-- Decoder for the `DecreaseNativeTokenSupply` payload. -/
def armDecreaseNativeTokenSupply : Json → Option AccountMethod
  | .obj [("tokenId", .num t), ("meltAmount", .num a), ("options", o)] =>
    match decOpt (decWrapDto TransactionOptions.mk) o with
    | some oo => some (.DecreaseNativeTokenSupply ⟨t⟩ ⟨a⟩ oo)
    | _ => none
  | _ => none

/-- Decoder for the `MinimumRequiredStorageDeposit` payload. -/
def armMinimumRequiredStorageDeposit : Json → Option AccountMethod
  | .obj [("output", d)] =>
    match decOutputDto d with
    | some dd => some (.MinimumRequiredStorageDeposit dd)
    | _ => none
  | _ => none

/-- Decoder for the `IncreaseNativeTokenSupply` payload. -/
def armIncreaseNativeTokenSupply : Json → Option AccountMethod
  | .obj [("tokenId", .num t), ("mintAmount", .num a), ("options", o)] =>
    match decOpt (decWrapDto TransactionOptions.mk) o with
    | some oo => some (.IncreaseNativeTokenSupply ⟨t⟩ ⟨a⟩ oo)
    | _ => none
  | _ => none

/-- Decoder for the `MintNativeToken` payload. -/
def armMintNativeToken : Json → Option AccountMethod
  | .obj [("params", p), ("options", o)] =>
    match decWrapDto MintNativeTokenParams.mk p,
        decOpt (decWrapDto TransactionOptions.mk) o with
    | some pp, some oo => some (.MintNativeToken pp oo)
    | _, _ => none
  | _ => none

/-- Decoder for the `MintNfts` payload. -/
def armMintNfts : Json → Option AccountMethod
  | .obj [("params", .arr ps), ("options", o)] =>
    match decListAux (decWrapDto MintNftParams.mk) ps,
        decOpt (decWrapDto TransactionOptions.mk) o with
    | some pp, some oo => some (.MintNfts pp oo)
    | _, _ => none
  | _ => none

/-- Decoder for the `PrepareOutput` payload. -/
def armPrepareOutput : Json → Option AccountMethod
  | .obj [("params", p), ("transactionOptions", o)] =>
    match decWrapDto OutputParams.mk p, decOpt (decWrapDto TransactionOptions.mk) o with
    | some pp, some oo => some (.PrepareOutput pp oo)
    | _, _ => none
  | _ => none

/-- Decoder for the `PrepareTransaction` payload. -/
def armPrepareTransaction : Json → Option AccountMethod
  | .obj [("outputs", .arr os), ("options", o)] =>
    match decListAux decOutputDto os, decOpt (decWrapDto TransactionOptions.mk) o with
    | some oss, some oo => some (.PrepareTransaction oss oo)
    | _, _ => none
  | _ => none

/-- Decoder for the `PrepareSendAmount` payload. -/
def armPrepareSendAmount : Json → Option AccountMethod
  | .obj [("params", .arr ps), ("options", o)] =>
    match decListAux (decWrap SendAmountParams.mk) ps,
        decOpt (decWrapDto TransactionOptions.mk) o with
    | some pp, some oo => some (.PrepareSendAmount pp oo)
    | _, _ => none
  | _ => none

/-- Decoder for the `RetryTransactionUntilIncluded` payload. -/
def armRetryTransactionUntilIncluded : Json → Option AccountMethod
  | .obj [("transactionId", .num i), ("interval", iv), ("maxAttempts", ma)] =>
    match decOpt decNat iv, decOpt decNat ma with
    | some ivv, some maa => some (.RetryTransactionUntilIncluded ⟨i⟩ ivv maa)
    | _, _ => none
  | _ => none

/-- Decoder for the `Sync` payload. -/
def armSync : Json → Option AccountMethod
  | .obj [("options", o)] =>
    match decOpt (decWrap SyncOptions.mk) o with
    | some oo => some (.Sync oo)
    | _ => none
  | _ => none

/-- Decoder for the `SendAmount` payload. -/
def armSendAmount : Json → Option AccountMethod
  | .obj [("params", .arr ps), ("options", o)] =>
    match decListAux (decWrap SendAmountParams.mk) ps,
        decOpt (decWrapDto TransactionOptions.mk) o with
    | some pp, some oo => some (.SendAmount pp oo)
    | _, _ => none
  | _ => none

/-- Decoder for the `SendNativeTokens` payload. -/
def armSendNativeTokens : Json → Option AccountMethod
  | .obj [("params", .arr ps), ("options", o)] =>
    match decListAux (decWrap SendNativeTokensParams.mk) ps,
        decOpt (decWrapDto TransactionOptions.mk) o with
    | some pp, some oo => some (.SendNativeTokens pp oo)
    | _, _ => none
  | _ => none

/-- Decoder for the `SendNft` payload. -/
def armSendNft : Json → Option AccountMethod
  | .obj [("params", .arr ps), ("options", o)] =>
    match decListAux (decWrap SendNftParams.mk) ps,
        decOpt (decWrapDto TransactionOptions.mk) o with
    | some pp, some oo => some (.SendNft pp oo)
    | _, _ => none
  | _ => none

/-- Decoder for the `SetAlias` payload. -/
def armSetAlias : Json → Option AccountMethod
  | .obj [("alias", .str a)] => some (.SetAlias a)
  | _ => none

/-- Decoder for the `SetDefaultSyncOptions` payload. -/
def armSetDefaultSyncOptions : Json → Option AccountMethod
  | .obj [("options", .num o)] => some (.SetDefaultSyncOptions ⟨o⟩)
  | _ => none

/-- Decoder for the `SendOutputs` payload. -/
def armSendOutputs : Json → Option AccountMethod
  | .obj [("outputs", .arr os), ("options", o)] =>
    match decListAux decOutputDto os, decOpt (decWrapDto TransactionOptions.mk) o with
    | some oss, some oo => some (.SendOutputs oss oo)
    | _, _ => none
  | _ => none

/-- Decoder for the `SignTransactionEssence` payload. -/
def armSignTransactionEssence : Json → Option AccountMethod
  | .obj [("preparedTransactionData", d)] =>
    match decPtdDto d with
    | some dd => some (.SignTransactionEssence dd)
    | _ => none
  | _ => none

/-- Decoder for the `SubmitAndStoreTransaction` payload. -/
def armSubmitAndStoreTransaction : Json → Option AccountMethod
  | .obj [("signedTransactionData", d)] =>
    match decStdDto d with
    | some dd => some (.SubmitAndStoreTransaction dd)
    | _ => none
  | _ => none

/-- Decoder for the `ClaimOutputs` payload. -/
def armClaimOutputs : Json → Option AccountMethod
  | .obj [("outputIdsToClaim", .arr ids)] =>
    match decListAux (decWrap OutputId.mk) ids with
    | some ii => some (.ClaimOutputs ii)
    | _ => none
  | _ => none

/-- Decoder for the `Vote` payload. -/
def armVote : Json → Option AccountMethod
  | .obj [("eventId", e), ("answers", a)] =>
    match decOpt (decWrap ParticipationEventId.mk) e,
        decOpt (fun j => match j with
          | .arr xs => decListAux decNat xs
          | _ => none) a with
    | some ee, some aa => some (.Vote ee aa)
    | _, _ => none
  | _ => none

/-- Decoder for the `StopParticipating` payload. -/
def armStopParticipating : Json → Option AccountMethod
  | .obj [("eventId", .num e)] => some (.StopParticipating ⟨e⟩)
  | _ => none

/-- Decoder for the `GetParticipationOverview` payload. -/
def armGetParticipationOverview : Json → Option AccountMethod
  | .obj [("eventIds", ids)] =>
    match decOpt (fun j => match j with
        | .arr xs => decListAux (decWrap ParticipationEventId.mk) xs
        | _ => none) ids with
    | some ii => some (.GetParticipationOverview ii)
    | _ => none
  | _ => none

/-- Decoder for the `IncreaseVotingPower` payload. -/
def armIncreaseVotingPower : Json → Option AccountMethod
  | .obj [("amount", .str a)] => some (.IncreaseVotingPower a)
  | _ => none

/-- Decoder for the `DecreaseVotingPower` payload. -/
def armDecreaseVotingPower : Json → Option AccountMethod
  | .obj [("amount", .str a)] => some (.DecreaseVotingPower a)
  | _ => none

/-- Decoder for the `RegisterParticipationEvents` payload. -/
def armRegisterParticipationEvents : Json → Option AccountMethod
  | .obj [("options", .num o)] => some (.RegisterParticipationEvents ⟨o⟩)
  | _ => none

/-- Decoder for the `DeregisterParticipationEvent` payload. -/
def armDeregisterParticipationEvent : Json → Option AccountMethod
  | .obj [("eventId", .num e)] => some (.DeregisterParticipationEvent ⟨e⟩)
  | _ => none

/-- Decoder for the `GetParticipationEvent` payload. -/
def armGetParticipationEvent : Json → Option AccountMethod
  | .obj [("eventId", .num e)] => some (.GetParticipationEvent ⟨e⟩)
  | _ => none

/-- Decoder for the `GetParticipationEventIds` payload. -/
def armGetParticipationEventIds : Json → Option AccountMethod
  | .obj [("node", .num n), ("eventType", t)] =>
    match decOpt (decWrap ParticipationEventType.mk) t with
    | some tt => some (.GetParticipationEventIds ⟨n⟩ tt)
    | _ => none
  | _ => none

/-- Decoder for the `GetParticipationEventStatus` payload. -/
def armGetParticipationEventStatus : Json → Option AccountMethod
  | .obj [("eventId", .num e)] => some (.GetParticipationEventStatus ⟨e⟩)
  | _ => none

/-- Dispatch on the variant tag of a unit variant. -/
def fromTagUnit (tag : String) : Option AccountMethod :=
  if tag = "addresses" then some .Addresses
  else if tag = "addressesWithUnspentOutputs" then some .AddressesWithUnspentOutputs
  else if tag = "incomingTransactions" then some .IncomingTransactions
  else if tag = "transactions" then some .Transactions
  else if tag = "pendingTransactions" then some .PendingTransactions
  else if tag = "getBalance" then some .GetBalance
  else if tag = "getVotingPower" then some .GetVotingPower
  else if tag = "getParticipationEvents" then some .GetParticipationEvents
  else none

/-- Dispatch on the variant tag of a data-carrying variant. -/
def fromTagData (tag : String) (d : Json) : Option AccountMethod :=
  if tag = "burn" then armBurn d
  else if tag = "consolidateOutputs" then armConsolidateOutputs d
  else if tag = "createAliasOutput" then armCreateAliasOutput d
  else if tag = "generateAddresses" then armGenerateAddresses d
  else if tag = "getOutput" then armGetOutput d
  else if tag = "getFoundryOutput" then armGetFoundryOutput d
  else if tag = "getOutputsWithAdditionalUnlockConditions" then
    armGetOutputsWithAdditionalUnlockConditions d
  else if tag = "getTransaction" then armGetTransaction d
  else if tag = "getIncomingTransaction" then armGetIncomingTransaction d
  else if tag = "outputs" then armOutputs d
  else if tag = "unspentOutputs" then armUnspentOutputs d
  else if tag = "decreaseNativeTokenSupply" then armDecreaseNativeTokenSupply d
  else if tag = "minimumRequiredStorageDeposit" then armMinimumRequiredStorageDeposit d
  else if tag = "increaseNativeTokenSupply" then armIncreaseNativeTokenSupply d
  else if tag = "mintNativeToken" then armMintNativeToken d
  else if tag = "mintNfts" then armMintNfts d
  else if tag = "prepareOutput" then armPrepareOutput d
  else if tag = "prepareTransaction" then armPrepareTransaction d
  else if tag = "prepareSendAmount" then armPrepareSendAmount d
  else if tag = "retryTransactionUntilIncluded" then armRetryTransactionUntilIncluded d
  else if tag = "sync" then armSync d
  else if tag = "sendAmount" then armSendAmount d
  else if tag = "sendNativeTokens" then armSendNativeTokens d
  else if tag = "sendNft" then armSendNft d
  else if tag = "setAlias" then armSetAlias d
  else if tag = "setDefaultSyncOptions" then armSetDefaultSyncOptions d
  else if tag = "sendOutputs" then armSendOutputs d
  else if tag = "signTransactionEssence" then armSignTransactionEssence d
  else if tag = "submitAndStoreTransaction" then armSubmitAndStoreTransaction d
  else if tag = "claimOutputs" then armClaimOutputs d
  else if tag = "vote" then armVote d
  else if tag = "stopParticipating" then armStopParticipating d
  else if tag = "getParticipationOverview" then armGetParticipationOverview d
  else if tag = "increaseVotingPower" then armIncreaseVotingPower d
  else if tag = "decreaseVotingPower" then armDecreaseVotingPower d
  else if tag = "registerParticipationEvents" then armRegisterParticipationEvents d
  else if tag = "deregisterParticipationEvent" then armDeregisterParticipationEvent d
  else if tag = "getParticipationEvent" then armGetParticipationEvent d
  else if tag = "getParticipationEventIds" then armGetParticipationEventIds d
  else if tag = "getParticipationEventStatus" then armGetParticipationEventStatus d
  else none

/-- Deserialization of the declared `AccountMethod` representation: an object
with the "name" tag and, for data-carrying variants, the "data" content. -/
def AccountMethod.fromJson : Json → Option AccountMethod
  | .obj [("name", .str tag)] => fromTagUnit tag
  | .obj [("name", .str tag), ("data", d)] => fromTagData tag d
  | _ => none

end Iota

namespace Iota

@[simp] theorem decOpt_encOpt_txopts (o : Option TransactionOptionsDto) :
    decOpt (decWrapDto TransactionOptions.mk)
      (encOpt (encWrapDto TransactionOptions.val) o) = some o := by
  rcases o with _ | ⟨ok, err⟩
  · rfl
  · cases ok <;> cases err <;> rfl

@[simp] theorem decOpt_encOpt_createAlias (o : Option CreateAliasParamsDto) :
    decOpt (decWrapDto CreateAliasParams.mk)
      (encOpt (encWrapDto CreateAliasParams.val) o) = some o := by
  rcases o with _ | ⟨ok, err⟩
  · rfl
  · cases ok <;> cases err <;> rfl

@[simp] theorem decOpt_encOpt_genAddrOpts (o : Option GenerateAddressOptions) :
    decOpt (decWrap GenerateAddressOptions.mk)
      (encOpt (fun x => Json.num x.val) o) = some o := by
  cases o <;> rfl

@[simp] theorem decOpt_encOpt_filterOpts (o : Option FilterOptions) :
    decOpt (decWrap FilterOptions.mk) (encOpt (fun x => Json.num x.val) o) = some o := by
  cases o <;> rfl

@[simp] theorem decOpt_encOpt_nat (o : Option Nat) :
    decOpt decNat (encOpt Json.num o) = some o := by
  cases o <;> rfl

@[simp] theorem decOpt_encOpt_syncOpts (o : Option SyncOptions) :
    decOpt (decWrap SyncOptions.mk) (encOpt (fun x => Json.num x.val) o) = some o := by
  cases o <;> rfl

@[simp] theorem decOpt_encOpt_eventId (o : Option ParticipationEventId) :
    decOpt (decWrap ParticipationEventId.mk)
      (encOpt (fun x => Json.num x.val) o) = some o := by
  cases o <;> rfl

@[simp] theorem decOpt_encOpt_eventType (o : Option ParticipationEventType) :
    decOpt (decWrap ParticipationEventType.mk)
      (encOpt (fun x => Json.num x.val) o) = some o := by
  cases o <;> rfl

@[simp] theorem decOpt_encOpt_natList (o : Option (List Nat)) :
    decOpt (fun j => match j with
      | .arr xs => decListAux decNat xs
      | _ => none) (encOpt (fun l => Json.arr (l.map Json.num)) o) = some o := by
  cases o with
  | none => rfl
  | some l => simp [decOpt, encOpt, decListAux_map decNat Json.num (fun a => rfl)]

@[simp] theorem decOpt_encOpt_eventIdList (o : Option (List ParticipationEventId)) :
    decOpt (fun j => match j with
      | .arr xs => decListAux (decWrap ParticipationEventId.mk) xs
      | _ => none)
      (encOpt (fun l => Json.arr (l.map (fun i => Json.num i.val))) o) = some o := by
  cases o with
  | none => rfl
  | some l =>
    simp [decOpt, encOpt,
      decListAux_map (decWrap ParticipationEventId.mk) (fun i => Json.num i.val)
        (fun a => rfl)]

@[simp] theorem decListAux_mintNfts (l : List MintNftParamsDto) :
    decListAux (decWrapDto MintNftParams.mk) (l.map (encWrapDto MintNftParams.val)) =
      some l :=
  decListAux_map _ _ decMintNftParamsDto_enc l

@[simp] theorem decListAux_outputDtos (l : List OutputDto) :
    decListAux decOutputDto (l.map encOutputDto) = some l :=
  decListAux_map _ _ decOutputDto_enc l

@[simp] theorem decListAux_sendAmountParams (l : List SendAmountParams) :
    decListAux (decWrap SendAmountParams.mk) (l.map (fun p => Json.num p.val)) = some l :=
  decListAux_map (decWrap SendAmountParams.mk) (fun p => Json.num p.val) (fun _ => rfl) l

@[simp] theorem decListAux_sendNativeTokensParams (l : List SendNativeTokensParams) :
    decListAux (decWrap SendNativeTokensParams.mk)
      (l.map (fun p => Json.num p.val)) = some l :=
  decListAux_map (decWrap SendNativeTokensParams.mk) (fun p => Json.num p.val)
    (fun _ => rfl) l

@[simp] theorem decListAux_sendNftParams (l : List SendNftParams) :
    decListAux (decWrap SendNftParams.mk) (l.map (fun p => Json.num p.val)) = some l :=
  decListAux_map (decWrap SendNftParams.mk) (fun p => Json.num p.val) (fun _ => rfl) l

@[simp] theorem decListAux_outputIds (l : List OutputId) :
    decListAux (decWrap OutputId.mk) (l.map (fun i => Json.num i.val)) = some l :=
  decListAux_map (decWrap OutputId.mk) (fun i => Json.num i.val) (fun _ => rfl) l

set_option maxHeartbeats 4000000 in
theorem accountMethod_fromJson_toJson (m : AccountMethod) :
    AccountMethod.fromJson m.toJson = some m := by
  cases m <;>
    simp [AccountMethod.toJson, AccountMethod.fromJson, tagged, taggedUnit,
      fromTagUnit, fromTagData, armBurn, armConsolidateOutputs, armCreateAliasOutput,
      armGenerateAddresses, armGetOutput, armGetFoundryOutput,
      armGetOutputsWithAdditionalUnlockConditions, armGetTransaction,
      armGetIncomingTransaction, armOutputs, armUnspentOutputs,
      armDecreaseNativeTokenSupply, armMinimumRequiredStorageDeposit,
      armIncreaseNativeTokenSupply, armMintNativeToken, armMintNfts, armPrepareOutput,
      armPrepareTransaction, armPrepareSendAmount, armRetryTransactionUntilIncluded,
      armSync, armSendAmount, armSendNativeTokens, armSendNft, armSetAlias,
      armSetDefaultSyncOptions, armSendOutputs, armSignTransactionEssence,
      armSubmitAndStoreTransaction, armClaimOutputs, armVote, armStopParticipating,
      armGetParticipationOverview, armIncreaseVotingPower, armDecreaseVotingPower,
      armRegisterParticipationEvents, armDeregisterParticipationEvent,
      armGetParticipationEvent, armGetParticipationEventIds,
      armGetParticipationEventStatus]

end Iota

namespace Iota

/-- Serialization of `WalletMethod` with its declared representation:
`#[serde(tag = "cmd", content = "payload", rename_all = "camelCase")]`, with
the explicit per-field renames of the source. -/
def WalletMethod.toJson : WalletMethod → Json
  | .CreateAccount a b =>
    .obj [("cmd", .str "createAccount"), ("payload", .obj
      [("alias", encOpt Json.str a), ("bech32Hrp", encOpt Json.str b)])]
  | .GetAccount i =>
    .obj [("cmd", .str "getAccount"), ("payload", .obj [("accountId", .num i.val)])]
  | .GetAccountIndexes => .obj [("cmd", .str "getAccountIndexes")]
  | .GetAccounts => .obj [("cmd", .str "getAccounts")]
  | .CallAccountMethod i m =>
    .obj [("cmd", .str "callAccountMethod"), ("payload", .obj
      [("accountId", .num i.val), ("method", m.toJson)])]
  | .Backup d p =>
    .obj [("cmd", .str "backup"), ("payload", .obj
      [("destination", .str d.path), ("password", .str p)])]
  | .ChangeStrongholdPassword c n =>
    .obj [("cmd", .str "changeStrongholdPassword"), ("payload", .obj
      [("currentPassword", .str c), ("newPassword", .str n)])]
  | .ClearStrongholdPassword => .obj [("cmd", .str "clearStrongholdPassword")]
  | .IsStrongholdPasswordAvailable => .obj [("cmd", .str "isStrongholdPasswordAvailable")]
  | .RecoverAccounts s g a o =>
    .obj [("cmd", .str "recoverAccounts"), ("payload", .obj
      [("accountStartIndex", .num s), ("accountGapLimit", .num g),
       ("addressGapLimit", .num a),
       ("syncOptions", encOpt (fun x => Json.num x.val) o)])]
  | .RestoreBackup s p i =>
    .obj [("cmd", .str "restoreBackup"), ("payload", .obj
      [("source", .str s.path), ("password", .str p),
       ("ignoreIfCoinTypeMismatch", encOpt Json.bool i)])]
  | .RemoveLatestAccount => .obj [("cmd", .str "removeLatestAccount")]
  | .SetClientOptions c =>
    .obj [("cmd", .str "setClientOptions"), ("payload", .obj
      [("clientOptions", .num c.val)])]
  | .GenerateAddress ai it ad o b =>
    .obj [("cmd", .str "generateAddress"), ("payload", .obj
      [("accountIndex", .num ai), ("internal", .bool it), ("addressIndex", .num ad),
       ("options", encOpt (fun x => Json.num x.val) o),
       ("bech32Hrp", encOpt Json.str b)])]
  | .GetLedgerNanoStatus => .obj [("cmd", .str "getLedgerNanoStatus")]
  | .SetStrongholdPassword p =>
    .obj [("cmd", .str "setStrongholdPassword"), ("payload", .obj
      [("password", .str p)])]
  | .SetStrongholdPasswordClearInterval i =>
    .obj [("cmd", .str "setStrongholdPasswordClearInterval"), ("payload", .obj
      [("intervalInMilliseconds", encOpt Json.num i)])]
  | .StoreMnemonic m =>
    .obj [("cmd", .str "storeMnemonic"), ("payload", .obj [("mnemonic", .str m)])]
  | .StartBackgroundSync o i =>
    .obj [("cmd", .str "startBackgroundSync"), ("payload", .obj
      [("options", encOpt (fun x => Json.num x.val) o),
       ("intervalInMilliseconds", encOpt Json.num i)])]
  | .StopBackgroundSync => .obj [("cmd", .str "stopBackgroundSync")]
  | .EmitTestEvent e =>
    .obj [("cmd", .str "emitTestEvent"), ("payload", .obj [("event", .num e.val)])]
  | .ClearListeners ts =>
    .obj [("cmd", .str "clearListeners"), ("payload", .obj
      [("eventTypes", .arr (ts.map (fun t => Json.num t.val)))])]
  | .UpdateNodeAuth u a =>
    .obj [("cmd", .str "updateNodeAuth"), ("payload", .obj
      [("url", .str u.url), ("auth", encOpt (fun x => Json.num x.val) a)])]

/-- Decoder for the `CreateAccount` payload. -/
def warmCreateAccount : Json → Option WalletMethod
  | .obj [("alias", a), ("bech32Hrp", b)] =>
    match decOpt decStr a, decOpt decStr b with
    | some aa, some bb => some (.CreateAccount aa bb)
    | _, _ => none
  | _ => none

/-- Decoder for the `GetAccount` payload. -/
def warmGetAccount : Json → Option WalletMethod
  | .obj [("accountId", .num i)] => some (.GetAccount ⟨i⟩)
  | _ => none

/-- Decoder for the `CallAccountMethod` payload. -/
def warmCallAccountMethod : Json → Option WalletMethod
  | .obj [("accountId", .num i), ("method", m)] =>
    match AccountMethod.fromJson m with
    | some mm => some (.CallAccountMethod ⟨i⟩ mm)
    | _ => none
  | _ => none

/-- Decoder for the `Backup` payload. -/
def warmBackup : Json → Option WalletMethod
  | .obj [("destination", .str d), ("password", .str p)] => some (.Backup ⟨d⟩ p)
  | _ => none

/-- Decoder for the `ChangeStrongholdPassword` payload. -/
def warmChangeStrongholdPassword : Json → Option WalletMethod
  | .obj [("currentPassword", .str c), ("newPassword", .str n)] =>
    some (.ChangeStrongholdPassword c n)
  | _ => none

/-- Decoder for the `RecoverAccounts` payload. -/
def warmRecoverAccounts : Json → Option WalletMethod
  | .obj [("accountStartIndex", .num s), ("accountGapLimit", .num g),
      ("addressGapLimit", .num a), ("syncOptions", o)] =>
    match decOpt (decWrap SyncOptions.mk) o with
    | some oo => some (.RecoverAccounts s g a oo)
    | _ => none
  | _ => none

/-- Decoder for the `RestoreBackup` payload. -/
def warmRestoreBackup : Json → Option WalletMethod
  | .obj [("source", .str s), ("password", .str p), ("ignoreIfCoinTypeMismatch", i)] =>
    match decOpt decBool i with
    | some ii => some (.RestoreBackup ⟨s⟩ p ii)
    | _ => none
  | _ => none

/-- Decoder for the `SetClientOptions` payload. -/
def warmSetClientOptions : Json → Option WalletMethod
  | .obj [("clientOptions", .num c)] => some (.SetClientOptions ⟨c⟩)
  | _ => none

/-- Decoder for the `GenerateAddress` payload. -/
def warmGenerateAddress : Json → Option WalletMethod
  | .obj [("accountIndex", .num ai), ("internal", .bool it), ("addressIndex", .num ad),
      ("options", o), ("bech32Hrp", b)] =>
    match decOpt (decWrap GenerateAddressOptions.mk) o, decOpt decStr b with
    | some oo, some bb => some (.GenerateAddress ai it ad oo bb)
    | _, _ => none
  | _ => none

/-- Decoder for the `SetStrongholdPassword` payload. -/
def warmSetStrongholdPassword : Json → Option WalletMethod
  | .obj [("password", .str p)] => some (.SetStrongholdPassword p)
  | _ => none

/-- Decoder for the `SetStrongholdPasswordClearInterval` payload. -/
def warmSetStrongholdPasswordClearInterval : Json → Option WalletMethod
  | .obj [("intervalInMilliseconds", i)] =>
    match decOpt decNat i with
    | some ii => some (.SetStrongholdPasswordClearInterval ii)
    | _ => none
  | _ => none

/-- Decoder for the `StoreMnemonic` payload. -/
def warmStoreMnemonic : Json → Option WalletMethod
  | .obj [("mnemonic", .str m)] => some (.StoreMnemonic m)
  | _ => none

/-- Decoder for the `StartBackgroundSync` payload. -/
def warmStartBackgroundSync : Json → Option WalletMethod
  | .obj [("options", o), ("intervalInMilliseconds", i)] =>
    match decOpt (decWrap SyncOptions.mk) o, decOpt decNat i with
    | some oo, some ii => some (.StartBackgroundSync oo ii)
    | _, _ => none
  | _ => none

/-- Decoder for the `EmitTestEvent` payload. -/
def warmEmitTestEvent : Json → Option WalletMethod
  | .obj [("event", .num e)] => some (.EmitTestEvent ⟨e⟩)
  | _ => none

/-- Decoder for the `ClearListeners` payload. -/
def warmClearListeners : Json → Option WalletMethod
  | .obj [("eventTypes", .arr ts)] =>
    match decListAux (decWrap WalletEventType.mk) ts with
    | some tt => some (.ClearListeners tt)
    | _ => none
  | _ => none

/-- Decoder for the `UpdateNodeAuth` payload. -/
def warmUpdateNodeAuth : Json → Option WalletMethod
  | .obj [("url", .str u), ("auth", a)] =>
    match decOpt (decWrap NodeAuth.mk) a with
    | some aa => some (.UpdateNodeAuth ⟨u⟩ aa)
    | _ => none
  | _ => none

/-- Dispatch on the tag of a unit `WalletMethod` variant. -/
def wfromTagUnit (tag : String) : Option WalletMethod :=
  if tag = "getAccountIndexes" then some .GetAccountIndexes
  else if tag = "getAccounts" then some .GetAccounts
  else if tag = "clearStrongholdPassword" then some .ClearStrongholdPassword
  else if tag = "isStrongholdPasswordAvailable" then some .IsStrongholdPasswordAvailable
  else if tag = "removeLatestAccount" then some .RemoveLatestAccount
  else if tag = "getLedgerNanoStatus" then some .GetLedgerNanoStatus
  else if tag = "stopBackgroundSync" then some .StopBackgroundSync
  else none

/-- Dispatch on the tag of a data-carrying `WalletMethod` variant. -/
def wfromTagData (tag : String) (d : Json) : Option WalletMethod :=
  if tag = "createAccount" then warmCreateAccount d
  else if tag = "getAccount" then warmGetAccount d
  else if tag = "callAccountMethod" then warmCallAccountMethod d
  else if tag = "backup" then warmBackup d
  else if tag = "changeStrongholdPassword" then warmChangeStrongholdPassword d
  else if tag = "recoverAccounts" then warmRecoverAccounts d
  else if tag = "restoreBackup" then warmRestoreBackup d
  else if tag = "setClientOptions" then warmSetClientOptions d
  else if tag = "generateAddress" then warmGenerateAddress d
  else if tag = "setStrongholdPassword" then warmSetStrongholdPassword d
  else if tag = "setStrongholdPasswordClearInterval" then
    warmSetStrongholdPasswordClearInterval d
  else if tag = "storeMnemonic" then warmStoreMnemonic d
  else if tag = "startBackgroundSync" then warmStartBackgroundSync d
  else if tag = "emitTestEvent" then warmEmitTestEvent d
  else if tag = "clearListeners" then warmClearListeners d
  else if tag = "updateNodeAuth" then warmUpdateNodeAuth d
  else none

/-- Deserialization of the declared `WalletMethod` representation: an object
with the "cmd" tag and, for data-carrying variants, the "payload" content. -/
def WalletMethod.fromJson : Json → Option WalletMethod
  | .obj [("cmd", .str tag)] => wfromTagUnit tag
  | .obj [("cmd", .str tag), ("payload", d)] => wfromTagData tag d
  | _ => none

@[simp] theorem decOpt_encOpt_str (o : Option String) :
    decOpt decStr (encOpt Json.str o) = some o := by
  cases o <;> rfl

@[simp] theorem decOpt_encOpt_bool (o : Option Bool) :
    decOpt decBool (encOpt Json.bool o) = some o := by
  cases o <;> rfl

@[simp] theorem decOpt_encOpt_nodeAuth (o : Option NodeAuth) :
    decOpt (decWrap NodeAuth.mk) (encOpt (fun x => Json.num x.val) o) = some o := by
  cases o <;> rfl

@[simp] theorem decListAux_walletEventTypes (l : List WalletEventType) :
    decListAux (decWrap WalletEventType.mk) (l.map (fun t => Json.num t.val)) = some l :=
  decListAux_map (decWrap WalletEventType.mk) (fun t => Json.num t.val) (fun _ => rfl) l

set_option maxHeartbeats 1000000 in
/-- Deserializing the canonical serialization of a `WalletMethod` yields the
original value. -/
theorem walletMethod_fromJson_toJson (w : WalletMethod) :
    WalletMethod.fromJson w.toJson = some w := by
  cases w <;>
    simp [WalletMethod.toJson, WalletMethod.fromJson, wfromTagUnit, wfromTagData,
      warmCreateAccount, warmGetAccount, warmCallAccountMethod, warmBackup,
      warmChangeStrongholdPassword, warmRecoverAccounts, warmRestoreBackup,
      warmSetClientOptions, warmGenerateAddress, warmSetStrongholdPassword,
      warmSetStrongholdPasswordClearInterval, warmStoreMnemonic,
      warmStartBackgroundSync, warmEmitTestEvent, warmClearListeners,
      warmUpdateNodeAuth, accountMethod_fromJson_toJson]

end Iota

namespace Iota

/-- C6: serde round-trip of the command vocabulary.  Serializing any
`AccountMethod` (tag "name", content "data", camelCase) or `WalletMethod`
(tag "cmd", content "payload", camelCase) and deserializing the result yields
the original value. -/
theorem claim_C6 :
    (∀ m : AccountMethod, AccountMethod.fromJson m.toJson = some m) ∧
    (∀ w : WalletMethod, WalletMethod.fromJson w.toJson = some w) :=
  ⟨accountMethod_fromJson_toJson, walletMethod_fromJson_toJson⟩

end Iota

namespace Iota

def bech32Charset : List Char := "qpzry9x8gf2tvdw0s3jn54khce6mua7l".toList

def findIdx : List Char → Char → Option Nat
  | [], _ => none
  | x :: rest, c => if x = c then some 0 else (findIdx rest c).map (· + 1)

def u5ToChar (n : Nat) : Char := bech32Charset.getD n 'q'

def charsToU5s : List Char → Option (List Nat)
  | [] => some []
  | c :: rest =>
    match findIdx bech32Charset c with
    | none => none
    | some n =>
      match charsToU5s rest with
      | none => none
      | some us => some (n :: us)

def splitLastOne : List Char → Option (List Char × List Char)
  | [] => none
  | c :: rest =>
    match splitLastOne rest with
    | some (h, d) => some (c :: h, d)
    | none => if c = '1' then some ([], rest) else none

def fromBits (l : List Bool) : Nat :=
  l.foldl (fun a b => 2 * a + (if b then 1 else 0)) 0

def bits5 (n : Nat) : List Bool :=
  [n.testBit 4, n.testBit 3, n.testBit 2, n.testBit 1, n.testBit 0]

def bits8 (n : Nat) : List Bool :=
  [n.testBit 7, n.testBit 6, n.testBit 5, n.testBit 4,
   n.testBit 3, n.testBit 2, n.testBit 1, n.testBit 0]

def u5sToBits : List Nat → List Bool
  | [] => []
  | n :: rest => bits5 n ++ u5sToBits rest

def bitsToU5s : List Bool → List Nat
  | b1 :: b2 :: b3 :: b4 :: b5 :: rest => fromBits [b1, b2, b3, b4, b5] :: bitsToU5s rest
  | _ => []

def bytesToBits : List Nat → List Bool
  | [] => []
  | b :: rest => bits8 b ++ bytesToBits rest

def bitsToBytes : List Bool → List Nat
  | b1 :: b2 :: b3 :: b4 :: b5 :: b6 :: b7 :: b8 :: rest =>
    fromBits [b1, b2, b3, b4, b5, b6, b7, b8] :: bitsToBytes rest
  | _ => []

def bitsRem : List Bool → List Bool
  | _ :: _ :: _ :: _ :: _ :: _ :: _ :: _ :: rest => bitsRem rest
  | l => l

def bech32Gen : List (Nat × Nat) :=
  [(0, 0x3b6a57b2), (1, 0x26508e6d), (2, 0x1ea119fa), (3, 0x3d4233dd), (4, 0x2a1462b3)]

def polymodStep (chk : Nat) (v : Nat) : Nat :=
  let b := chk >>> 25
  let c := ((chk &&& 0x1ffffff) <<< 5) ^^^ v
  bech32Gen.foldl (fun acc ig => if b.testBit ig.1 then acc ^^^ ig.2 else acc) c

def bech32Polymod (values : List Nat) : Nat := values.foldl polymodStep 1

def hrpExpand (hrp : List Char) : List Nat :=
  hrp.map (fun c => c.toNat >>> 5) ++ 0 :: hrp.map (fun c => c.toNat &&& 31)

def bech32Checksum (hrp : List Char) (data : List Nat) : List Nat :=
  let poly := bech32Polymod (hrpExpand hrp ++ data ++ [0, 0, 0, 0, 0, 0]) ^^^ 1
  [(poly >>> 25) &&& 31, (poly >>> 20) &&& 31, (poly >>> 15) &&& 31,
   (poly >>> 10) &&& 31, (poly >>> 5) &&& 31, poly &&& 31]

def bech32Decode (s : String) : Option (String × List Nat) :=
  match splitLastOne s.toList with
  | none => none
  | some (hrpChars, dataChars) =>
    match charsToU5s dataChars with
    | none => none
    | some us =>
      if 6 ≤ us.length then
        if us.drop (us.length - 6) = bech32Checksum hrpChars (us.take (us.length - 6)) then
          if (bitsRem (u5sToBits (us.take (us.length - 6)))).length < 5 ∧
              (bitsRem (u5sToBits (us.take (us.length - 6)))).all (fun b => !b) then
            some (String.mk hrpChars, bitsToBytes (u5sToBits (us.take (us.length - 6))))
          else none
        else none
      else none

def bech32Encode (hrp : String) (bytes : List Nat) : String :=
  String.mk (hrp.toList ++ '1' ::
    ((bitsToU5s (bytesToBits bytes ++
        List.replicate ((5 - (bytesToBits bytes).length % 5) % 5) false)).map u5ToChar ++
     (bech32Checksum hrp.toList (bitsToU5s (bytesToBits bytes ++
        List.replicate ((5 - (bytesToBits bytes).length % 5) % 5) false))).map u5ToChar))

end Iota

namespace Iota

theorem findIdx_lt {l : List Char} {c : Char} {n : Nat}
    (h : findIdx l c = some n) : n < l.length := by
  induction l generalizing n with
  | nil => simp [findIdx] at h
  | cons x rest ih =>
    simp only [findIdx] at h
    split at h
    · simp only [Option.some.injEq] at h
      simp only [List.length_cons]
      omega
    · rcases hm : findIdx rest c with _ | m
      · simp [hm] at h
      · simp [hm] at h
        have := ih hm
        simp only [List.length_cons]
        omega

theorem findIdx_getD {l : List Char} {c d : Char} {n : Nat}
    (h : findIdx l c = some n) : l.getD n d = c := by
  induction l generalizing n with
  | nil => simp [findIdx] at h
  | cons x rest ih =>
    simp only [findIdx] at h
    split at h
    · rename_i hx
      simp only [Option.some.injEq] at h
      subst h
      simpa using hx
    · rcases hm : findIdx rest c with _ | m
      · simp [hm] at h
      · simp [hm] at h
        subst h
        simpa using ih hm

theorem charsToU5s_spec {cs : List Char} {us : List Nat}
    (h : charsToU5s cs = some us) :
    us.map u5ToChar = cs ∧ ∀ u ∈ us, u < 32 := by
  induction cs generalizing us with
  | nil =>
    simp [charsToU5s] at h
    subst h
    simp
  | cons c rest ih =>
    simp only [charsToU5s] at h
    rcases hf : findIdx bech32Charset c with _ | n <;> simp [hf] at h
    rcases hrest : charsToU5s rest with _ | us2 <;> simp [hrest] at h
    subst h
    obtain ⟨ih1, ih2⟩ := ih hrest
    refine ⟨?_, ?_⟩
    · simp only [List.map_cons, ih1]
      rw [show u5ToChar n = bech32Charset.getD n 'q' from rfl, findIdx_getD hf]
    · intro u hu
      rcases List.mem_cons.mp hu with rfl | hu2
      · have := findIdx_lt hf
        simpa [bech32Charset] using this
      · exact ih2 u hu2

theorem fromBits_bits5 : ∀ n < 32, fromBits (bits5 n) = n := by decide

theorem fromBits5_lt : ∀ a b c d e : Bool, fromBits [a, b, c, d, e] < 32 := by decide

theorem bits8_fromBits : ∀ a b c d e f g h : Bool,
    bits8 (fromBits [a, b, c, d, e, f, g, h]) = [a, b, c, d, e, f, g, h] := by decide

theorem fromBits8_lt : ∀ a b c d e f g h : Bool,
    fromBits [a, b, c, d, e, f, g, h] < 256 := by decide

theorem bitsToU5s_u5sToBits {us : List Nat} (h : ∀ u ∈ us, u < 32) :
    bitsToU5s (u5sToBits us) = us := by
  induction us with
  | nil => rfl
  | cons n rest ih =>
    have hn : n < 32 := h n (by simp)
    show bitsToU5s (bits5 n ++ u5sToBits rest) = n :: rest
    show fromBits [n.testBit 4, n.testBit 3, n.testBit 2, n.testBit 1, n.testBit 0] ::
        bitsToU5s (u5sToBits rest) = n :: rest
    rw [show [n.testBit 4, n.testBit 3, n.testBit 2, n.testBit 1, n.testBit 0] =
        bits5 n from rfl,
      fromBits_bits5 n hn, ih (fun u hu => h u (by simp [hu]))]

theorem bytesToBits_bitsToBytes (l : List Bool) :
    bytesToBits (bitsToBytes l) ++ bitsRem l = l := by
  induction l using bitsToBytes.induct with
  | case1 b1 b2 b3 b4 b5 b6 b7 b8 rest ih =>
    show bytesToBits (fromBits [b1, b2, b3, b4, b5, b6, b7, b8] :: bitsToBytes rest) ++
        bitsRem rest = _
    show bits8 (fromBits [b1, b2, b3, b4, b5, b6, b7, b8]) ++
        (bytesToBits (bitsToBytes rest) ++ bitsRem rest) = _
    rw [bits8_fromBits, ih]
    rfl
  | case2 l hl =>
    rcases l with _ | ⟨a1, _ | ⟨a2, _ | ⟨a3, _ | ⟨a4, _ | ⟨a5, _ | ⟨a6, _ | ⟨a7, _ | ⟨a8, rest⟩⟩⟩⟩⟩⟩⟩⟩
    · rfl
    · rfl
    · rfl
    · rfl
    · rfl
    · rfl
    · rfl
    · rfl
    · exact absurd rfl (hl a1 a2 a3 a4 a5 a6 a7 a8 rest)

theorem bitsToBytes_lt (l : List Bool) : ∀ b ∈ bitsToBytes l, b < 256 := by
  induction l using bitsToBytes.induct with
  | case1 b1 b2 b3 b4 b5 b6 b7 b8 rest ih =>
    intro b hb
    rcases List.mem_cons.mp hb with rfl | hb2
    · exact fromBits8_lt b1 b2 b3 b4 b5 b6 b7 b8
    · exact ih b hb2
  | case2 l hl =>
    intro b hb
    rcases l with _ | ⟨a1, _ | ⟨a2, _ | ⟨a3, _ | ⟨a4, _ | ⟨a5, _ | ⟨a6, _ | ⟨a7, _ | ⟨a8, rest⟩⟩⟩⟩⟩⟩⟩⟩
    · exact absurd hb (List.not_mem_nil b)
    · exact absurd hb (List.not_mem_nil b)
    · exact absurd hb (List.not_mem_nil b)
    · exact absurd hb (List.not_mem_nil b)
    · exact absurd hb (List.not_mem_nil b)
    · exact absurd hb (List.not_mem_nil b)
    · exact absurd hb (List.not_mem_nil b)
    · exact absurd hb (List.not_mem_nil b)
    · exact absurd rfl (hl a1 a2 a3 a4 a5 a6 a7 a8 rest)

theorem bytesToBits_length (bs : List Nat) : (bytesToBits bs).length = 8 * bs.length := by
  induction bs with
  | nil => rfl
  | cons b rest ih =>
    show (bits8 b ++ bytesToBits rest).length = _
    simp only [List.length_append, ih, bits8, List.length_cons, List.length_nil]
    omega

theorem u5sToBits_length (us : List Nat) : (u5sToBits us).length = 5 * us.length := by
  induction us with
  | nil => rfl
  | cons n rest ih =>
    show (bits5 n ++ u5sToBits rest).length = _
    simp only [List.length_append, ih, bits5, List.length_cons, List.length_nil]
    omega

theorem all_false_replicate {l : List Bool} (h : l.all (fun b => !b) = true) :
    l = List.replicate l.length false := by
  induction l with
  | nil => rfl
  | cons b rest ih =>
    simp only [List.all_cons, Bool.and_eq_true] at h
    obtain ⟨hb, hrest⟩ := h
    have hbf : b = false := by cases b <;> simp at hb ⊢
    subst hbf
    simp only [List.length_cons, List.replicate_succ, List.cons.injEq]
    exact ⟨trivial, ih hrest⟩

end Iota

namespace Iota

theorem splitLastOne_none {l : List Char} (h : splitLastOne l = none) : '1' ∉ l := by
  induction l with
  | nil => simp
  | cons c rest ih =>
    rcases hr : splitLastOne rest with _ | p
    · simp only [splitLastOne, hr] at h
      split at h
      · simp at h
      · rename_i hc
        simp only [List.mem_cons]
        push_neg
        exact ⟨fun hx => hc hx.symm, ih hr⟩
    · simp only [splitLastOne, hr] at h
      exact absurd h (by simp)

theorem splitLastOne_spec {l h d : List Char}
    (hs : splitLastOne l = some (h, d)) : l = h ++ '1' :: d ∧ '1' ∉ d := by
  induction l generalizing h d with
  | nil => simp [splitLastOne] at hs
  | cons c rest ih =>
    rcases hr : splitLastOne rest with _ | ⟨h2, d2⟩
    · simp only [splitLastOne, hr] at hs
      split at hs
      · rename_i hc
        simp only [Option.some.injEq, Prod.mk.injEq] at hs
        obtain ⟨hs1, hs2⟩ := hs
        subst hs1
        subst hs2
        subst hc
        exact ⟨rfl, splitLastOne_none hr⟩
      · simp at hs
    · simp only [splitLastOne, hr, Option.some.injEq, Prod.mk.injEq] at hs
      obtain ⟨hs1, hs2⟩ := hs
      subst hs1
      subst hs2
      obtain ⟨ih1, ih2⟩ := ih hr
      exact ⟨by rw [ih1]; rfl, ih2⟩

end Iota

namespace Iota

theorem bech32Encode_decode {s hrp : String} {bytes : List Nat}
    (h : bech32Decode s = some (hrp, bytes)) : bech32Encode hrp bytes = s := by
  unfold bech32Decode at h
  rcases hsp : splitLastOne s.toList with _ | ⟨hrpChars, dataChars⟩
  case none =>
    simp only [hsp] at h
    exact absurd h (by simp)
  simp only [hsp] at h
  rcases hus : charsToU5s dataChars with _ | us
  case none =>
    simp only [hus] at h
    exact absurd h (by simp)
  simp only [hus] at h
  split at h
  case isFalse => simp at h
  rename_i hlen
  split at h
  case isFalse => simp at h
  rename_i hck
  split at h
  case isFalse => simp at h
  rename_i hrem
  simp only [Option.some.injEq, Prod.mk.injEq] at h
  obtain ⟨hh, hb⟩ := h
  subst hh
  subst hb
  obtain ⟨hsplit, _⟩ := splitLastOne_spec hsp
  obtain ⟨hchars, hlt⟩ := charsToU5s_spec hus
  obtain ⟨hrem1, hrem2⟩ := hrem
  have hpl : ∀ u ∈ us.take (us.length - 6), u < 32 :=
    fun u hu => hlt u (List.take_subset _ _ hu)
  have hdecomp := bytesToBits_bitsToBytes (u5sToBits (us.take (us.length - 6)))
  have hremrep := all_false_replicate hrem2
  have hleneq : (bytesToBits (bitsToBytes (u5sToBits (us.take (us.length - 6))))).length +
      (bitsRem (u5sToBits (us.take (us.length - 6)))).length =
      (u5sToBits (us.take (us.length - 6))).length := by
    rw [← List.length_append, hdecomp]
  have hpadlen : (5 - (bytesToBits (bitsToBytes (u5sToBits
      (us.take (us.length - 6))))).length % 5) % 5 =
      (bitsRem (u5sToBits (us.take (us.length - 6)))).length := by
    rw [bytesToBits_length] at hleneq ⊢
    rw [u5sToBits_length] at hleneq
    omega
  have hbits : bytesToBits (bitsToBytes (u5sToBits (us.take (us.length - 6)))) ++
      List.replicate ((5 - (bytesToBits (bitsToBytes (u5sToBits
        (us.take (us.length - 6))))).length % 5) % 5) false =
      u5sToBits (us.take (us.length - 6)) := by
    rw [hpadlen, ← hremrep, hdecomp]
  have hu5s : bitsToU5s (bytesToBits (bitsToBytes (u5sToBits (us.take (us.length - 6)))) ++
      List.replicate ((5 - (bytesToBits (bitsToBytes (u5sToBits
        (us.take (us.length - 6))))).length % 5) % 5) false) =
      us.take (us.length - 6) := by
    rw [hbits]
    exact bitsToU5s_u5sToBits hpl
  show String.mk ((String.mk hrpChars).toList ++ '1' :: _) = s
  rw [show (String.mk hrpChars).toList = hrpChars from rfl]
  rw [hu5s, ← hck]
  rw [show (us.take (us.length - 6)).map u5ToChar ++ (us.drop (us.length - 6)).map u5ToChar =
      (us.take (us.length - 6) ++ us.drop (us.length - 6)).map u5ToChar from
      (List.map_append _ _ _).symm]
  rw [List.take_append_drop, hchars, ← hsplit]
  cases s
  rfl

end Iota

namespace Iota

def hexDigitsList : List Char := "0123456789abcdef".toList

def hexDigit (n : Nat) : Char := hexDigitsList.getD n '0'

def hexOfBytes : List Nat → List Char
  | [] => []
  | b :: rest => hexDigit (b / 16) :: hexDigit (b % 16) :: hexOfBytes rest

def hexCharVal (c : Char) : Option Nat := findIdx hexDigitsList c

def bytesOfHex : List Char → Option (List Nat)
  | [] => some []
  | c1 :: c2 :: rest =>
    match hexCharVal c1, hexCharVal c2 with
    | some hi, some lo =>
      match bytesOfHex rest with
      | some bs => some ((16 * hi + lo) :: bs)
      | none => none
    | _, _ => none
  | _ => none

def strip0x : List Char → List Char
  | '0' :: 'x' :: rest => rest
  | l => l

theorem hexCharVal_hexDigit : ∀ n < 16, hexCharVal (hexDigit n) = some n := by decide

theorem bytesOfHex_hexOfBytes {bs : List Nat} (h : ∀ b ∈ bs, b < 256) :
    bytesOfHex (hexOfBytes bs) = some bs := by
  induction bs with
  | nil => rfl
  | cons b rest ih =>
    have hb := h b (by simp)
    show bytesOfHex (hexDigit (b / 16) :: hexDigit (b % 16) :: hexOfBytes rest) = _
    simp only [bytesOfHex]
    rw [hexCharVal_hexDigit (b / 16) (by omega), hexCharVal_hexDigit (b % 16) (by omega),
      ih (fun x hx => h x (by simp [hx]))]
    simp only [Option.some.injEq, List.cons.injEq]
    exact ⟨by omega, trivial⟩

theorem bech32Decode_bytes_lt {s hrp : String} {bytes : List Nat}
    (h : bech32Decode s = some (hrp, bytes)) : ∀ b ∈ bytes, b < 256 := by
  unfold bech32Decode at h
  rcases hsp : splitLastOne s.toList with _ | ⟨hrpChars, dataChars⟩
  case none =>
    simp only [hsp] at h
    exact absurd h (by simp)
  simp only [hsp] at h
  rcases hus : charsToU5s dataChars with _ | us
  case none =>
    simp only [hus] at h
    exact absurd h (by simp)
  simp only [hus] at h
  split at h
  case isFalse => simp at h
  split at h
  case isFalse => simp at h
  split at h
  case isFalse => simp at h
  simp only [Option.some.injEq, Prod.mk.injEq] at h
  obtain ⟨hh, hb⟩ := h
  subst hb
  exact bitsToBytes_lt _

/-- Modelled from the spec: the `UtilsMethod` vocabulary (its definition is
outside this fragment; only `src/bindings/core/tests/utils.rs` exercises it),
restricted to the two address-conversion commands the test uses. -/
inductive UtilsMethod where
  | Bech32ToHex (bech32 : String)
  | HexToBech32 (hex : String) (bech32_hrp : String)

/-- Modelled from the spec: the response envelope of the utils handler for the
two conversion commands. -/
inductive UtilsResponse where
  | Bech32ToHex (hex : String)
  | Bech32Address (address : String)
  | UtilsError (e : Err)
deriving DecidableEq, Repr

/-- Modelled from the spec: `Bech32ToHex` decodes a bech32 address and renders
its payload bytes as 0x-prefixed hex. -/
def bech32_to_hex (bech32 : String) : Except Err String :=
  match bech32Decode bech32 with
  | some (_, bytes) => .ok (String.mk ('0' :: 'x' :: hexOfBytes bytes))
  | none => .error (.engine 0)

/-- Modelled from the spec: `HexToBech32` parses 0x-prefixed hex and encodes
the bytes as a bech32 address under the given human-readable part. -/
def hex_to_bech32 (hex : String) (bech32_hrp : String) : Except Err String :=
  match bytesOfHex (strip0x hex.toList) with
  | some bytes => .ok (bech32Encode bech32_hrp bytes)
  | none => .error (.engine 1)

/-- Modelled from the spec: the utils dispatch for the two conversion
commands, wrapping each conversion result in its response variant. -/
def call_utils_method : UtilsMethod → UtilsResponse
  | .Bech32ToHex b =>
    match bech32_to_hex b with
    | .ok h => .Bech32ToHex h
    | .error e => .UtilsError e
  | .HexToBech32 h hrp =>
    match hex_to_bech32 h hrp with
    | .ok a => .Bech32Address a
    | .error e => .UtilsError e

/-- C9: converting a valid "rms" bech32 address to hex and back with hrp "rms"
returns the original address. -/
theorem claim_C9 (s : String) (bytes : List Nat)
    (h : bech32Decode s = some ("rms", bytes)) :
    call_utils_method (.Bech32ToHex s) =
      .Bech32ToHex (String.mk ('0' :: 'x' :: hexOfBytes bytes)) ∧
    call_utils_method (.HexToBech32 (String.mk ('0' :: 'x' :: hexOfBytes bytes)) "rms") =
      .Bech32Address s := by
  constructor
  · simp [call_utils_method, bech32_to_hex, h]
  · have hlt := bech32Decode_bytes_lt h
    simp only [call_utils_method, hex_to_bech32]
    rw [show (String.mk ('0' :: 'x' :: hexOfBytes bytes)).toList =
        '0' :: 'x' :: hexOfBytes bytes from rfl]
    rw [show strip0x ('0' :: 'x' :: hexOfBytes bytes) = hexOfBytes bytes from rfl]
    rw [bytesOfHex_hexOfBytes hlt]
    show UtilsResponse.Bech32Address (bech32Encode "rms" bytes) = UtilsResponse.Bech32Address s
    rw [bech32Encode_decode h]

set_option maxRecDepth 10000 in
/-- C9 (witness): the concrete "rms" address encoding the single byte 0x00
round-trips through hex and back. -/
theorem claim_C9_witness :
    call_utils_method (.Bech32ToHex "rms1qq5vyykm") =
      .Bech32ToHex (String.mk ('0' :: 'x' :: hexOfBytes [0])) ∧
    call_utils_method (.HexToBech32 (String.mk ('0' :: 'x' :: hexOfBytes [0])) "rms") =
      .Bech32Address "rms1qq5vyykm" :=
  claim_C9 "rms1qq5vyykm" [0] (by decide)

end Iota
